import Mathlib

/-!
# VitalMatrix reconciliation engine — shallow embedding

Shallow embedding of the reconciliation engine of the VitalMatrix backend
(`backend/app/services/oura_sync.py`, `backend/app/services/sleep_metrics_service.py`,
`backend/app/api/v1/oura.py`), with proofs of the specification's testable
properties about it.

Modelling conventions:
* Calendar dates are integers (day numbers); instants are integers
  (minutes since an epoch, in UTC).  `Asia/Hong_Kong` is a fixed UTC+8
  offset (no DST), so the local calendar date of an instant `t` is
  `(t + 480).fdiv 1440`.
* A Python value that may be `None` is an `Option`.
* A vendor string field that must be parsed (`date.fromisoformat`,
  `datetime.fromisoformat`) is modelled as a sum of a parsed value and a
  `malformed` marker; parsing such a field raises, i.e. returns
  `Except.error`, exactly when the code would raise `ValueError`.
* The database session is a list of rows (one user; the `user_id` filters
  of the queries are identities here).  `select ... where oura_id == k`
  is `List.find?`; `self.db.add` appends; attribute assignment on a
  fetched row is `List.map` guarded by the key.
* Floating-point arithmetic of `numpy` is modelled over `ℚ`; Python's
  `int(x)` is truncation toward zero.
-/

namespace VitalMatrix

/-- A vendor `day` string: either it parses to a calendar date (an
integer day number) or it is malformed, in which case
`date.fromisoformat` raises. -/
inductive DayField where
  | valid (d : Int)
  | malformed
deriving DecidableEq, Repr

/-- `date.fromisoformat(day) if day else None`: absent field gives
`None`; a malformed present field raises. -/
def parseDay : Option DayField → Except Unit (Option Int)
  | none => .ok none
  | some (.valid d) => .ok (some d)
  | some .malformed => .error ()

/-- A vendor timestamp string (`bedtime_start` / `bedtime_end`): either
it parses to an instant (minutes since epoch, UTC) or it is malformed,
in which case `datetime.fromisoformat` raises. -/
inductive TimeField where
  | valid (t : Int)
  | malformed
deriving DecidableEq, Repr

/-- `datetime.fromisoformat(s) if s else None`. -/
def parseTime : Option TimeField → Except Unit (Option Int)
  | none => .ok none
  | some (.valid t) => .ok (some t)
  | some .malformed => .error ()

/-- Calendar date of an instant in the user's local timezone
(`Asia/Hong_Kong`, fixed UTC+8): `bedtime_end.astimezone(hk_tz).date()`. -/
def hkDate (t : Int) : Int := (t + 480).fdiv 1440

/-- The `contributors` object of an Oura daily-sleep summary item. -/
structure DContribs where
  deep_sleep : Option Int := none
  efficiency : Option Int := none
  latency : Option Int := none
  rem_sleep : Option Int := none
  restfulness : Option Int := none
  timing : Option Int := none
  total_sleep : Option Int := none
deriving DecidableEq, Repr

/-- An item of the `daily_sleep` vendor stream (`sleep_data` in
`oura_sync.py`): the fields the sync code reads. -/
structure DItem where
  id : Option String := none
  day : Option DayField := none
  score : Option Int := none
  contributors : Option DContribs := none
deriving DecidableEq, Repr

/-- A stored `OuraDailySleep` row, with the columns the sync code
writes. -/
structure DRow where
  user_id : Nat
  oura_id : String
  day : Int
  score : Option Int
  contributor_deep_sleep : Option Int
  contributor_efficiency : Option Int
  contributor_latency : Option Int
  contributor_rem_sleep : Option Int
  contributor_restfulness : Option Int
  contributor_timing : Option Int
  contributor_total_sleep : Option Int
  raw_json : DItem
  created_at : Int
deriving DecidableEq, Repr

/-- The ambient context of one sync pass: the caller's refresh-policy
flags of `sync_user_data` plus the pass's `today_hk()` / `now_hk()`
values and the user. -/
structure SyncCtx where
  user_id : Nat
  today : Int
  now : Int
  force : Bool
  force_today : Bool
  force_recent_date : Option Int
deriving DecidableEq, Repr

/-- `force or (force_today and item_date == today) or
(force_recent_date and item_date and item_date >= force_recent_date)`. -/
def shouldForce (ctx : SyncCtx) (item_date : Option Int) : Bool :=
  ctx.force ||
    (ctx.force_today && item_date == some ctx.today) ||
    (match ctx.force_recent_date, item_date with
      | some fr, some d => decide (fr ≤ d)
      | _, _ => false)

/-- `select(OuraDailySleep).where(OuraDailySleep.oura_id == oura_id)`. -/
def lookupD (k : String) (s : List DRow) : Option DRow :=
  s.find? (fun r => r.oura_id == k)

/-- The row built by the insert branch of `_sync_daily_sleep_data`. -/
def mkDailyRow (ctx : SyncCtx) (item : DItem) (d? : Option Int) : DRow :=
  let c := item.contributors.getD {}
  { user_id := ctx.user_id
    oura_id := (item.id.getD "")
    day := d?.getD ctx.today
    score := item.score
    contributor_deep_sleep := c.deep_sleep
    contributor_efficiency := c.efficiency
    contributor_latency := c.latency
    contributor_rem_sleep := c.rem_sleep
    contributor_restfulness := c.restfulness
    contributor_timing := c.timing
    contributor_total_sleep := c.total_sleep
    raw_json := item
    created_at := ctx.now }

/-- The field assignments of the update branch of
`_sync_daily_sleep_data` (`existing.day = ...` etc.; `created_at`,
`user_id` and `oura_id` are left untouched). -/
def updDailyRow (item : DItem) (d? : Option Int) (r : DRow) : DRow :=
  let c := item.contributors.getD {}
  { r with
    day := d?.getD r.day
    score := item.score
    contributor_deep_sleep := c.deep_sleep
    contributor_efficiency := c.efficiency
    contributor_latency := c.latency
    contributor_rem_sleep := c.rem_sleep
    contributor_restfulness := c.restfulness
    contributor_timing := c.timing
    contributor_total_sleep := c.total_sleep
    raw_json := item }

/-- `≥3 points of daily-score change counts as significant`
(`old_score is not None and new_score is not None and |Δ| >= 3`). -/
def dailyScoreChanged (oldScore newScore : Option Int) : Bool :=
  match oldScore, newScore with
  | some o, some n => decide (3 ≤ (n - o).natAbs)
  | _, _ => false

/-- Result of one entity-stream sync: the stored rows, the returned
`new_count`, the `has_significant_change` flag, and (as an observation
of the insert branch, `self.db.add`) the external ids of the rows
inserted by this run, in stream order. -/
structure DSyncOut where
  store : List DRow
  count : Nat
  significant : Bool
  inserted : List String
deriving DecidableEq, Repr

/-- `_sync_daily_sleep_data`, one loop iteration per stream item.
Mirrors `oura_sync.py` lines 480–559: skip on missing `id`; parse the
`day` field (raising on a malformed one); an existing row is updated
exactly when `should_force`, otherwise skipped; a missing row is always
inserted.  Updates count toward `new_count` and are significant when
the score moved by ≥ 3; inserts always count and are always
significant. -/
def syncDailyRun (ctx : SyncCtx) : List DItem → List DRow → Except Unit DSyncOut
  | [], s => .ok ⟨s, 0, false, []⟩
  | item :: rest, s =>
    match item.id with
    | none => syncDailyRun ctx rest s
    | some k => do
      let item_date ← parseDay item.day
      match lookupD k s, shouldForce ctx item_date with
      | some ex, true =>
        let s' := s.map (fun r => if r.oura_id == k then updDailyRow item item_date r else r)
        let out ← syncDailyRun ctx rest s'
        .ok ⟨out.store, out.count + 1,
             dailyScoreChanged ex.score item.score || out.significant, out.inserted⟩
      | some _, false => syncDailyRun ctx rest s
      | none, _ =>
        let out ← syncDailyRun ctx rest (s ++ [mkDailyRow ctx item item_date])
        .ok ⟨out.store, out.count + 1, true, k :: out.inserted⟩

/-! ## Readiness reconciler (`_sync_readiness_data`) -/

/-- The `contributors` object of an Oura daily-readiness item. -/
structure RContribs where
  activity_balance : Option Int := none
  sleep_balance : Option Int := none
  previous_night : Option Int := none
  previous_day_activity : Option Int := none
  recovery_index : Option Int := none
  resting_heart_rate : Option Int := none
  hrv_balance : Option Int := none
  body_temperature : Option Int := none
  sleep_regularity : Option Int := none
deriving DecidableEq, Repr

/-- An item of the `readiness` vendor stream. -/
structure RItem where
  id : Option String := none
  day : Option DayField := none
  score : Option Int := none
  temperature_deviation : Option Int := none
  temperature_trend_deviation : Option Int := none
  contributors : Option RContribs := none
deriving DecidableEq, Repr

/-- A stored `OuraDailyReadiness` row, with the columns the sync code
writes. -/
structure RRow where
  user_id : Nat
  oura_id : String
  day : Int
  score : Option Int
  temperature_deviation : Option Int
  temperature_trend_deviation : Option Int
  activity_balance : Option Int
  sleep_balance : Option Int
  previous_night : Option Int
  previous_day_activity : Option Int
  recovery_index : Option Int
  resting_heart_rate : Option Int
  hrv_balance : Option Int
  body_temperature : Option Int
  sleep_regularity : Option Int
  raw_json : RItem
  created_at : Int
deriving DecidableEq, Repr

/-- `select(OuraDailyReadiness).where(OuraDailyReadiness.oura_id == oura_id)`. -/
def lookupR (k : String) (s : List RRow) : Option RRow :=
  s.find? (fun r => r.oura_id == k)

/-- The row built by the insert branch of `_sync_readiness_data`. -/
def mkReadinessRow (ctx : SyncCtx) (item : RItem) (d? : Option Int) : RRow :=
  let c := item.contributors.getD {}
  { user_id := ctx.user_id
    oura_id := (item.id.getD "")
    day := d?.getD ctx.today
    score := item.score
    temperature_deviation := item.temperature_deviation
    temperature_trend_deviation := item.temperature_trend_deviation
    activity_balance := c.activity_balance
    sleep_balance := c.sleep_balance
    previous_night := c.previous_night
    previous_day_activity := c.previous_day_activity
    recovery_index := c.recovery_index
    resting_heart_rate := c.resting_heart_rate
    hrv_balance := c.hrv_balance
    body_temperature := c.body_temperature
    sleep_regularity := c.sleep_regularity
    raw_json := item
    created_at := ctx.now }

/-- The field assignments of the update branch of `_sync_readiness_data`. -/
def updReadinessRow (item : RItem) (d? : Option Int) (r : RRow) : RRow :=
  let c := item.contributors.getD {}
  { r with
    day := d?.getD r.day
    score := item.score
    temperature_deviation := item.temperature_deviation
    temperature_trend_deviation := item.temperature_trend_deviation
    activity_balance := c.activity_balance
    sleep_balance := c.sleep_balance
    previous_night := c.previous_night
    previous_day_activity := c.previous_day_activity
    recovery_index := c.recovery_index
    resting_heart_rate := c.resting_heart_rate
    hrv_balance := c.hrv_balance
    body_temperature := c.body_temperature
    sleep_regularity := c.sleep_regularity
    raw_json := item }

/-- Result of a readiness-stream sync: `_sync_readiness_data` counts
only inserts in `new_count` (its update branch has no `new_count += 1`). -/
structure RSyncOut where
  store : List RRow
  count : Nat
  inserted : List String
deriving DecidableEq, Repr

/-- `_sync_readiness_data` (`oura_sync.py` lines 561–632): skip on
missing `id`; parse the `day` field; an existing row is overwritten
exactly when `should_force`; a missing row is always inserted. -/
def syncReadinessRun (ctx : SyncCtx) : List RItem → List RRow → Except Unit RSyncOut
  | [], s => .ok ⟨s, 0, []⟩
  | item :: rest, s =>
    match item.id with
    | none => syncReadinessRun ctx rest s
    | some k => do
      let item_date ← parseDay item.day
      match lookupR k s, shouldForce ctx item_date with
      | some _, true =>
        syncReadinessRun ctx rest
          (s.map (fun r => if r.oura_id == k then updReadinessRow item item_date r else r))
      | some _, false => syncReadinessRun ctx rest s
      | none, _ =>
        let out ← syncReadinessRun ctx rest (s ++ [mkReadinessRow ctx item item_date])
        .ok ⟨out.store, out.count + 1, k :: out.inserted⟩

/-! ## Sleep segment reconciler (`_sync_sleep_data`)

A sleep *detail* (one segment) carries its own duration, its type
(`long_sleep` for the primary overnight sleep, anything else for naps),
an embedded readiness object, and the nap delta fields.  The daily
summary stream (`sleep_data`, the same `DItem` list fed to
`_sync_daily_sleep_data`) supplies the cumulative score for the primary
segment of the matching vendor day.  Stored rows keep the columns the
branch logic and the claims read; the remaining copied-through columns
(sleep-phase durations, heart-rate/HRV averages, contributor and
embedded-readiness columns) are carried opaquely by `raw_json`. -/

/-- The embedded `readiness` object of a sleep detail. -/
structure EmbReadiness where
  score : Option Int := none
deriving DecidableEq, Repr

/-- An item of the `sleep_details` vendor stream (one sleep segment). -/
structure SItem where
  id : Option String := none
  day : Option DayField := none
  sleep_type : Option String := none
  bedtime_start : Option TimeField := none
  bedtime_end : Option TimeField := none
  total_sleep_duration : Option Int := none
  sleep_score_delta : Option Int := none
  readiness_score_delta : Option Int := none
  readiness : Option EmbReadiness := none
deriving DecidableEq, Repr

/-- A stored `OuraSleep` row (one sleep segment). -/
structure SRow where
  user_id : Nat
  oura_id : String
  day : Int
  bedtime_start : Option Int
  bedtime_end : Option Int
  total_sleep_duration : Option Int
  sleep_type : Option String
  sleep_score : Option Int
  sleep_score_delta : Option Int
  readiness_score_delta : Option Int
  raw_json : Option DItem × SItem
  created_at : Int
deriving DecidableEq, Repr

/-- `select(OuraSleep).where(OuraSleep.oura_id == detail_id)`. -/
def lookupS (k : String) (s : List SRow) : Option SRow :=
  s.find? (fun r => r.oura_id == k)

/-- Python truthiness of an optional number (`None` and `0` are falsy). -/
def truthy : Option Int → Bool
  | some n => decide (n ≠ 0)
  | none => false

/-- The daily-summary map of `_sync_sleep_data`
(`summary_map[day] = item` for items with a truthy `day`; a later item
with the same day overwrites an earlier one). -/
def summaryFor (summaries : List DItem) (day : Option DayField) : Option DItem :=
  match day with
  | none => none
  | some d => (summaries.filter (fun it => it.day == some d)).getLast?

/-- `sleep_score` on insert: the primary sleep takes the summary's
score (when truthy), otherwise the embedded readiness score when the
`readiness` object is present, otherwise `None`.  Lines 386–390. -/
def insertSleepScore (sleep_type : Option String) (summary : Option DItem)
    (readiness : Option EmbReadiness) : Option Int :=
  if sleep_type == some "long_sleep" && truthy (summary.bind (·.score)) then
    summary.bind (·.score)
  else
    match readiness with
    | some rd => rd.score
    | none => none

/-- `sleep_score` on update (lines 334–338): as on insert, but when
neither source applies the stored score is left unchanged. -/
def updateSleepScore (sleep_type : Option String) (summary : Option DItem)
    (readiness : Option EmbReadiness) (old : Option Int) : Option Int :=
  if sleep_type == some "long_sleep" && truthy (summary.bind (·.score)) then
    summary.bind (·.score)
  else
    match readiness with
    | some rd => rd.score
    | none => old

/-- Day attribution (lines 304–309): the calendar date of `bedtime_end`
in Hong Kong local time when present, else the vendor's own day label,
else today. -/
def sleepDayOf (ctx : SyncCtx) (bedtimeEnd : Option Int) (item_date : Option Int) : Int :=
  match bedtimeEnd with
  | some t => hkDate t
  | none => item_date.getD ctx.today

/-- The row built by the insert branch of `_sync_sleep_data` (lines 383–441). -/
def mkSleepRow (ctx : SyncCtx) (detail : SItem) (summary : Option DItem)
    (bs be : Option Int) (sleep_day : Int) : SRow :=
  { user_id := ctx.user_id
    oura_id := (detail.id.getD "")
    day := sleep_day
    bedtime_start := bs
    bedtime_end := be
    total_sleep_duration := detail.total_sleep_duration
    sleep_type := detail.sleep_type
    sleep_score := insertSleepScore detail.sleep_type summary detail.readiness
    sleep_score_delta := detail.sleep_score_delta
    readiness_score_delta := detail.readiness_score_delta
    raw_json := (summary, detail)
    created_at := ctx.now }

/-- The field assignments of the update branch of `_sync_sleep_data`
(lines 318–373). -/
def updSleepRow (detail : SItem) (summary : Option DItem)
    (bs be : Option Int) (sleep_day : Int) (r : SRow) : SRow :=
  { r with
    day := sleep_day
    bedtime_start := bs
    bedtime_end := be
    total_sleep_duration := detail.total_sleep_duration
    sleep_type := detail.sleep_type
    sleep_score := updateSleepScore detail.sleep_type summary detail.readiness r.sleep_score
    sleep_score_delta := detail.sleep_score_delta
    readiness_score_delta := detail.readiness_score_delta
    raw_json := (summary, detail) }

/-- The non-forced update decision of `_sync_sleep_data` (lines 253–290),
evaluated only when a row exists and `force` is off.  Returns
`(needs_update, item_has_change)`. -/
def sleepUpdateDecision (ctx : SyncCtx) (detail : SItem) (summary : Option DItem)
    (item_date : Option Int) (ex : SRow) : Bool × Bool :=
  if ex.total_sleep_duration = none then (true, false)
  else
    let policyForce : Bool :=
      (ctx.force_today && item_date == some ctx.today) ||
        (match ctx.force_recent_date, item_date with
          | some fr, some d => decide (fr ≤ d)
          | _, _ => false)
    let durationChange : Bool :=
      match detail.total_sleep_duration, ex.total_sleep_duration with
      | some nd, some od => nd != 0 && od != 0 && decide (300 ≤ (nd - od).natAbs)
      | _, _ => false
    let scoreChange : Bool :=
      if detail.sleep_type == some "long_sleep" then
        match summary.bind (·.score), ex.sleep_score with
        | some ns, some os => ns != 0 && os != 0 && ns != os
        | _, _ => false
      else
        match detail.sleep_score_delta, ex.sleep_score_delta with
        | some nd, some od => nd != od
        | _, _ => false
    (policyForce || durationChange || scoreChange, durationChange || scoreChange)

/-- Result of the sleep-segment sync. -/
structure SSyncOut where
  store : List SRow
  count : Nat
  significant : Bool
deriving DecidableEq, Repr

/-- `_sync_sleep_data` (`oura_sync.py` lines 192–457), one loop
iteration per detail.  Skip on missing `id`; parse the `day` field (a
malformed one raises); without `force`, an existing complete row is
re-examined and skipped unless the policy or a detected change demands
an update; then the bedtime fields are parsed (a malformed one raises),
the segment's local day is attributed, and the row is updated
(counting, and significant, only for a detected change) or inserted
(significant iff the new duration is at least 300 seconds). -/
def syncSleepRun (ctx : SyncCtx) (summaries : List DItem) :
    List SItem → List SRow → Except Unit SSyncOut
  | [], s => .ok ⟨s, 0, false⟩
  | detail :: rest, s =>
    match detail.id with
    | none => syncSleepRun ctx summaries rest s
    | some k => do
      let summary : Option DItem :=
        if detail.sleep_type == some "long_sleep" then summaryFor summaries detail.day
        else none
      let item_date ← parseDay detail.day
      let (proceed, needs_update, item_has_change) :=
        match lookupS k s, ctx.force with
        | some ex, false =>
          let (nu, ihc) := sleepUpdateDecision ctx detail summary item_date ex
          (nu, nu, ihc)
        | some _, true => (true, false, false)
        | none, _ => (true, false, false)
      if proceed then do
        let bs ← parseTime detail.bedtime_start
        let be ← parseTime detail.bedtime_end
        let sleep_day := sleepDayOf ctx be item_date
        match lookupS k s with
        | some _ =>
          let s' := s.map (fun r =>
            if r.oura_id == k then updSleepRow detail summary bs be sleep_day r else r)
          let out ← syncSleepRun ctx summaries rest s'
          .ok ⟨out.store, out.count + (if needs_update then 1 else 0),
               (needs_update && item_has_change) || out.significant⟩
        | none =>
          let out ← syncSleepRun ctx summaries rest
            (s ++ [mkSleepRow ctx detail summary bs be sleep_day])
          .ok ⟨out.store, out.count + 1,
               decide (300 ≤ detail.total_sleep_duration.getD 0) || out.significant⟩
      else syncSleepRun ctx summaries rest s

/-! ## Sleep-debt estimator (`sleep_metrics_service.py`)

`numpy` float arithmetic is modelled over `ℚ`; `int(x)` is truncation
toward zero; `np.percentile` is the default linear-interpolation
method. -/

/-- Python `int(x)`: truncation toward zero. -/
def pyInt (q : ℚ) : Int := q.num.tdiv q.den

/-- `np.mean`. -/
def listMean (xs : List ℚ) : ℚ := xs.sum / (xs.length : ℚ)

/-- `np.percentile(xs, p)` with the default linear-interpolation
method: on the sorted sample, the value at fractional rank
`(n - 1) * p / 100`. -/
def npPercentile (xs : List ℚ) (p : ℚ) : ℚ :=
  let s := List.insertionSort (· ≤ ·) xs
  match s with
  | [] => 0
  | _ =>
    let h : ℚ := ((s.length : ℚ) - 1) * p / 100
    let lo : Nat := (⌊h⌋).toNat
    let frac : ℚ := h - (lo : ℚ)
    match s[lo]?, s[lo + 1]? with
    | some a, some b => a + frac * (b - a)
    | some a, none => a
    | none, _ => 0

/-- The qualifying nightly durations (minutes) of the trailing-90-day
baseline query (`_calculate_baseline_sleep` lines 184–197): every
stored sleep row — of any segment type — whose `day` lies in
`[target - 89, target]` and whose non-null duration lies within
3h–12h. -/
def baselineDurations (store : List SRow) (t : Int) : List ℚ :=
  store.filterMap (fun r =>
    match r.total_sleep_duration with
    | some d =>
      if t - 89 ≤ r.day ∧ r.day ≤ t ∧ 180 * 60 ≤ d ∧ d ≤ 720 * 60 then
        some ((d : ℚ) / 60)
      else none
    | none => none)

/-- The IQR outlier filter of `_calculate_baseline_sleep`
(lines 206–215): keep the durations within
`[Q1 - 1.5·IQR, Q3 + 1.5·IQR]`. -/
def baselineFiltered (store : List SRow) (t : Int) : List ℚ :=
  let durations := baselineDurations store t
  let q1 := npPercentile durations 25
  let q3 := npPercentile durations 75
  let iqr := q3 - q1
  let lower_bound := q1 - 3 / 2 * iqr
  let upper_bound := q3 + 3 / 2 * iqr
  durations.filter (fun d => decide (lower_bound ≤ d) && decide (d ≤ upper_bound))

/-- `_calculate_baseline_sleep` (lines 170–232): `None` below 30
qualifying nights; otherwise the truncated mean of the IQR-filtered
sample, falling back to the unfiltered sample when filtering leaves
fewer than 20 nights. -/
def calculateBaselineSleep (store : List SRow) (t : Int) : Option Int :=
  let durations := baselineDurations store t
  if durations.length < 30 then none
  else
    let filtered := baselineFiltered store t
    let filtered := if filtered.length < 20 then durations else filtered
    some (pyInt (listMean filtered))

/-- The trailing-14-day records feeding the debt computation
(`calculate_sleep_debt` lines 62–73): every stored sleep row — of any
segment type, with no minimum duration — whose `day` lies in
`[target - 13, target]` and whose duration is non-null, ordered
most-recent-first (`order_by(OuraSleep.day.desc())`). -/
def debtRecords (store : List SRow) (t : Int) : List SRow :=
  List.insertionSort (fun a b => b.day ≤ a.day)
    (store.filter (fun r =>
      decide (t - 13 ≤ r.day) && decide (r.day ≤ t) && r.total_sleep_duration.isSome))

/-- The weighted-debt accumulation loop (lines 89–103): for the `i`-th
most recent record, weight `1.0 - (i * 0.5 / 13)`; returns
`(weighted_debt, total_weight)`. -/
def debtFold (baseline : ℚ) (recs : List SRow) : ℚ × ℚ :=
  recs.enum.foldl
    (fun acc p =>
      let actual : ℚ := ((p.2.total_sleep_duration.getD 0 : Int) : ℚ) / 60
      let daily_debt := baseline - actual
      let weight : ℚ := 1 - (p.1 : ℚ) * (1 / 2) / 13
      (acc.1 + daily_debt * weight, acc.2 + weight))
    (0, 0)

/-- Trend classification (lines 112–126): most recent 3 nights vs
nights 4–7, only when at least 7 records exist. -/
def debtTrend (recs : List SRow) : String :=
  if 7 ≤ recs.length then
    let recent_3d := (recs.take 3).map
      (fun r => ((r.total_sleep_duration.getD 0 : Int) : ℚ) / 60)
    let previous_4d := ((recs.drop 3).take 4).map
      (fun r => ((r.total_sleep_duration.getD 0 : Int) : ℚ) / 60)
    let recent_avg := listMean recent_3d
    let previous_avg := listMean previous_4d
    if previous_avg + 15 < recent_avg then "improving"
    else if recent_avg < previous_avg - 15 then "worsening"
    else "stable"
  else "stable"

/-- The 0–100 balance score (lines 128–144): piecewise-linear in the
debt, anchored at (−60, 100), (0, 85), (120, 0). -/
def balanceScore (debt : Int) : Int :=
  if debt ≤ -60 then 100
  else if 120 ≤ debt then 0
  else if debt ≤ 0 then 85 + pyInt (((debt.natAbs : Int) : ℚ) / 60 * 15)
  else max 0 (85 - pyInt ((debt : ℚ) / 120 * 85))

/-- Data-quality label (lines 146–152). -/
def dataQualityOf (n : Nat) : String :=
  if 12 ≤ n then "good" else if 8 ≤ n then "moderate" else "limited"

/-- The dictionary returned by `calculate_sleep_debt`. -/
structure DebtResult where
  sleep_debt_minutes : Option Int
  baseline_sleep_minutes : Int
  recent_14d_avg_minutes : Option Int
  debt_trend : String
  sleep_balance_score : Option Int
  data_quality : String
deriving DecidableEq, Repr

/-- `calculate_sleep_debt` (lines 26–168): `None` when the baseline is
not computable; an `insufficient` result below 5 records in the
trailing 14 days; otherwise the truncated weighted debt together with
the derived average, trend, balance score and quality. -/
def calculateSleepDebt (store : List SRow) (t : Int) : Option DebtResult :=
  match calculateBaselineSleep store t with
  | none => none
  | some baseline_minutes =>
    let recs := debtRecords store t
    if recs.length < 5 then
      some ⟨none, baseline_minutes, none, "unknown", none, "insufficient"⟩
    else
      let (weighted_debt, total_weight) := debtFold (baseline_minutes : ℚ) recs
      let sleep_debt_minutes : Int :=
        if 0 < total_weight then pyInt (weighted_debt / total_weight) else 0
      let recent_avg_minutes :=
        pyInt (listMean (recs.map
          (fun r => ((r.total_sleep_duration.getD 0 : Int) : ℚ) / 60)))
      some ⟨some sleep_debt_minutes, baseline_minutes, some recent_avg_minutes,
            debtTrend recs, some (balanceScore sleep_debt_minutes),
            dataQualityOf recs.length⟩

/-! ## Per-day score decomposition (`api/v1/oura.py`, `get_grouped_sleep_data`) -/

/-- The in-place sort key of a day's segments (lines 488–491):
`long_sleep` first, then duration descending. -/
def groupKey (r : SRow) : Nat × Int :=
  (if r.sleep_type == some "long_sleep" then 0 else 1, -(r.total_sleep_duration.getD 0))

/-- Lexicographic comparison on `groupKey`, as Python's tuple sort. -/
def groupLE (a b : SRow) : Prop :=
  (groupKey a).1 < (groupKey b).1 ∨
    ((groupKey a).1 = (groupKey b).1 ∧ (groupKey a).2 ≤ (groupKey b).2)

instance : DecidableRel groupLE := fun a b => by unfold groupLE; infer_instance

/-- A day's segment list after the endpoint's sort. -/
def sortedDayRecords (l : List SRow) : List SRow := List.insertionSort groupLE l

/-- `summary_score` (lines 496–501): the stored score of the first
`long_sleep` segment with a truthy score. -/
def summaryScoreOf (l : List SRow) : Option Int :=
  ((sortedDayRecords l).find?
    (fun r => r.sleep_type == some "long_sleep" && truthy r.sleep_score)).bind
    (·.sleep_score)

/-- `total_delta` (line 561): the sum of `sleep_score_delta or 0` over
the day's segments. -/
def totalDeltaOf (l : List SRow) : Int :=
  ((sortedDayRecords l).map (fun r => r.sleep_score_delta.getD 0)).sum

/-- `base_score = summary_score - total_delta if summary_score else None`
(line 562). -/
def baseScoreOf (l : List SRow) : Option Int :=
  match summaryScoreOf l with
  | some ss => if ss ≠ 0 then some (ss - totalDeltaOf l) else none
  | none => none

/-! ## Token manager (`oura_sync.py`, `get_access_token`)

Instants are seconds here (`expires_in` is in seconds). The vendor
refresh call is modelled by its outcome. -/

/-- A stored `OuraAuth` row, with the columns `get_access_token` reads
and writes. -/
structure OuraAuthRow where
  access_token : Option String
  refresh_token : Option String
  token_expires_at : Option Int
  is_active : Bool
deriving DecidableEq, Repr

/-- The token payload of a successful vendor refresh call. -/
structure TokenData where
  access_token : String
  refresh_token : Option String := none
  expires_in : Option Int := none
deriving DecidableEq, Repr

/-- Outcome of `oura_client.refresh_access_token` (success or raise). -/
inductive RefreshOutcome where
  | ok (td : TokenData)
  | fail
deriving DecidableEq, Repr

/-- What one call of `get_access_token` produces: the returned token,
the stored auth row afterwards, and whether a refresh was executed. -/
structure TokenResult where
  token : Option String
  auth : Option OuraAuthRow
  refreshed : Bool
deriving DecidableEq, Repr

/-- `get_access_token` (`oura_sync.py` lines 30–70): return `None`
without an active row or stored token; refresh (when a refresh token
exists) exactly when `token_expires_at < now`; otherwise return the
stored token unchanged. -/
def getAccessToken (auth? : Option OuraAuthRow) (now : Int)
    (outcome : RefreshOutcome) : TokenResult :=
  match auth?.bind (fun a => if a.is_active then some a else none) with
  | none => ⟨none, none, false⟩
  | some a =>
    match a.access_token with
    | none => ⟨none, some a, false⟩
    | some tok =>
      match a.token_expires_at with
      | some e =>
        if e < now then
          match a.refresh_token with
          | some rt =>
            match outcome with
            | .ok td =>
              let a' : OuraAuthRow :=
                { a with
                  access_token := some td.access_token
                  refresh_token := some (td.refresh_token.getD rt)
                  token_expires_at := some (now + td.expires_in.getD 86400) }
              ⟨some td.access_token, some a', true⟩
            | .fail => ⟨none, some a, true⟩
          | none => ⟨none, some a, false⟩
        else ⟨some tok, some a, false⟩
      | none => ⟨some tok, some a, false⟩

/-! ## Generic lemmas about keyed stores -/

/-- Finding by key after a guarded in-place update at that key finds
the updated row. -/
theorem find?_map_guard {α : Type} (key : α → String) (k : String) (u : α → α)
    (hu : ∀ r, key (u r) = key r) (s : List α) :
    (s.map (fun r => if key r == k then u r else r)).find? (fun r => key r == k) =
      (s.find? (fun r => key r == k)).map u := by
  induction s with
  | nil => rfl
  | cons r s ih =>
    by_cases h : (key r == k) = true
    · rw [List.map_cons, if_pos h, List.find?_cons_of_pos, List.find?_cons_of_pos]
      · rfl
      · exact h
      · show (key (u r) == k) = true
        rw [hu]; exact h
    · rw [List.map_cons, if_neg h, List.find?_cons_of_neg, List.find?_cons_of_neg]
      · exact ih
      · exact h
      · exact h

/-- A guarded in-place update at key `k'` does not disturb lookups at a
different key `k`. -/
theorem find?_map_guard_ne {α : Type} (key : α → String) (k k' : String)
    (hne : k ≠ k') (u : α → α) (hu : ∀ r, key (u r) = key r) (s : List α) :
    (s.map (fun r => if key r == k' then u r else r)).find? (fun r => key r == k) =
      s.find? (fun r => key r == k) := by
  induction s with
  | nil => rfl
  | cons r s ih =>
    by_cases h : (key r == k) = true
    · have hk : key r = k := by simpa using h
      have h' : (key r == k') = false := by simp [hk, hne]
      rw [List.map_cons, if_neg (by simp [h']), List.find?_cons_of_pos,
        List.find?_cons_of_pos]
      · exact h
      · exact h
    · by_cases h' : (key r == k') = true
      · rw [List.map_cons, if_pos h', List.find?_cons_of_neg, List.find?_cons_of_neg]
        · exact ih
        · exact h
        · show ¬(key (u r) == k) = true
          rw [hu]; exact h
      · rw [List.map_cons, if_neg h', List.find?_cons_of_neg, List.find?_cons_of_neg]
        · exact ih
        · exact h
        · exact h

/-- Appending a row with a different key does not disturb lookups. -/
theorem find?_append_ne {α : Type} (key : α → String) (k : String) (x : α)
    (hx : (key x == k) = false) (s : List α) :
    (s ++ [x]).find? (fun r => key r == k) = s.find? (fun r => key r == k) := by
  induction s with
  | nil =>
    rw [List.nil_append, List.find?_cons_of_neg]
    simp [hx]
  | cons r s ih =>
    by_cases h : (key r == k) = true
    · rw [List.cons_append, List.find?_cons_of_pos, List.find?_cons_of_pos]
      · exact h
      · exact h
    · rw [List.cons_append, List.find?_cons_of_neg, List.find?_cons_of_neg]
      · exact ih
      · exact h
      · exact h

/-- A guarded in-place update is the identity when the rows at the key
are already fixed points. -/
theorem map_guard_id {α : Type} (key : α → String) (k : String) (u : α → α)
    (s : List α) (h : ∀ r ∈ s, key r = k → u r = r) :
    s.map (fun r => if key r == k then u r else r) = s := by
  induction s with
  | nil => rfl
  | cons r s ih =>
    have hr : (if key r == k then u r else r) = r := by
      by_cases hk : (key r == k) = true
      · rw [if_pos hk]
        exact h r (List.mem_cons_self r s) (by simpa using hk)
      · rw [if_neg hk]
    rw [List.map_cons, hr, ih (fun x hx hk => h x (List.mem_cons_of_mem _ hx) hk)]

/-! ## C9 — token refresh timing -/

/-- C9 (counterexample): with the stored token 120 seconds from expiry
(within the claimed 5-minute window) the Oura token manager returns the
stored token unchanged and executes no refresh, contradicting the claim
that a token within 5 minutes of expiry is always refreshed before the
vendor calls. -/
theorem getAccessToken_no_expiry_buffer :
    getAccessToken (some ⟨some "tok", some "r", some 120, true⟩) 0
        (.ok ⟨"new", none, none⟩) =
      ⟨some "tok", some ⟨some "tok", some "r", some 120, true⟩, false⟩ ∧
    (120 : Int) - 0 ≤ 5 * 60 := by
  constructor
  · rfl
  · decide

/-- C9 (amended): `get_access_token` checks the stored expiry once per
sync pass and refreshes only when the token is already expired
(`token_expires_at < now`); a live token — even one within 5 minutes of
expiry — is returned without refresh, and an expired token with a
refresh token is refreshed and its row rewritten. -/
theorem getAccessToken_refresh_policy (a : OuraAuthRow) (now : Int)
    (ro : RefreshOutcome) (tok : String)
    (ha : a.is_active = true) (ht : a.access_token = some tok) :
    (∀ e, a.token_expires_at = some e → now ≤ e →
      getAccessToken (some a) now ro = ⟨some tok, some a, false⟩) ∧
    (a.token_expires_at = none →
      getAccessToken (some a) now ro = ⟨some tok, some a, false⟩) ∧
    (∀ e rt td, a.token_expires_at = some e → e < now → a.refresh_token = some rt →
      getAccessToken (some a) now (.ok td) =
        ⟨some td.access_token,
         some { a with
                access_token := some td.access_token
                refresh_token := some (td.refresh_token.getD rt)
                token_expires_at := some (now + td.expires_in.getD 86400) },
         true⟩) := by
  refine ⟨fun e he hle => ?_, fun he => ?_, fun e rt td he hlt hrt => ?_⟩
  · simp [getAccessToken, ha, ht, he, not_lt.mpr hle]
  · simp [getAccessToken, ha, ht, he]
  · simp [getAccessToken, ha, ht, he, hlt, hrt]

/-- Witness for `getAccessToken_refresh_policy`. -/
theorem getAccessToken_refresh_policy_witness :
    ((⟨some "t", some "r", some 100, true⟩ : OuraAuthRow).is_active = true ∧
      (⟨some "t", some "r", some 100, true⟩ : OuraAuthRow).access_token = some "t") ∧
    getAccessToken (some ⟨some "t", some "r", some 100, true⟩) 0 .fail =
      ⟨some "t", some ⟨some "t", some "r", some 100, true⟩, false⟩ :=
  ⟨⟨rfl, rfl⟩,
    (getAccessToken_refresh_policy ⟨some "t", some "r", some 100, true⟩ 0 .fail "t"
      rfl rfl).1 100 rfl (by decide)⟩

/-! ## C2 — insertion is policy-independent -/

/-- C2: a record whose external id has no stored row is inserted under
every refresh-policy combination (`force`, `force_today`,
`force_recent_days`, or none of them, all quantified inside `ctx`),
whatever the record's day; shown for the daily-sleep and the readiness
entity reconcilers. -/
theorem insertion_policy_independent :
    (∀ (ctx : SyncCtx) (s : List DRow) (item : DItem) (k : String) (d? : Option Int),
      item.id = some k → parseDay item.day = .ok d? → lookupD k s = none →
      syncDailyRun ctx [item] s = .ok ⟨s ++ [mkDailyRow ctx item d?], 1, true, [k]⟩) ∧
    (∀ (ctx : SyncCtx) (s : List RRow) (item : RItem) (k : String) (d? : Option Int),
      item.id = some k → parseDay item.day = .ok d? → lookupR k s = none →
      syncReadinessRun ctx [item] s = .ok ⟨s ++ [mkReadinessRow ctx item d?], 1, [k]⟩) := by
  constructor
  · intro ctx s item k d? hk hp hl
    simp only [syncDailyRun, hk, hp, lookupD] at *
    simp [hl, Bind.bind, Except.bind, syncDailyRun]
  · intro ctx s item k d? hk hp hl
    simp only [syncReadinessRun, hk, hp, lookupR] at *
    simp [hl, Bind.bind, Except.bind, syncReadinessRun]

/-- Witness for `insertion_policy_independent`: under the `TodayOnly`
policy (`force_today` alone) a brand-new record dated two days before
today is still inserted. -/
theorem insertion_policy_independent_witness :
    ((⟨some "a", some (.valid 98), some 70, none⟩ : DItem).id = some "a" ∧
      parseDay (⟨some "a", some (.valid 98), some 70, none⟩ : DItem).day = .ok (some 98) ∧
      lookupD "a" [] = none) ∧
    syncDailyRun ⟨7, 100, 0, false, true, none⟩
        [⟨some "a", some (.valid 98), some 70, none⟩] [] =
      .ok ⟨[mkDailyRow ⟨7, 100, 0, false, true, none⟩
              ⟨some "a", some (.valid 98), some 70, none⟩ (some 98)], 1, true, ["a"]⟩ :=
  ⟨⟨rfl, rfl, rfl⟩, by
    have h := insertion_policy_independent.1 ⟨7, 100, 0, false, true, none⟩ []
      ⟨some "a", some (.valid 98), some 70, none⟩ "a" (some 98) rfl rfl rfl
    simpa using h⟩

/-! ## C6 — malformed-record tolerance -/

/-- C6 (counterexample): a stream whose middle record has an
unparseable day field makes the daily-sleep reconciler raise
(`date.fromisoformat` throws), aborting the whole pass — the malformed
record is not skipped and the remaining record is not processed, so
the sync does not tolerate every malformed record. -/
theorem syncDaily_malformed_raises :
    syncDailyRun ⟨7, 100, 0, true, false, none⟩
        [⟨some "a", some (.valid 99), some 70, none⟩,
         ⟨some "bad", some .malformed, some 1, none⟩,
         ⟨some "b", some (.valid 100), some 80, none⟩] [] = .error () := by
  rfl

/-- C6 (amended): the reconciler tolerates only a record missing its
external id — such a record is skipped (without logging) and the rest
of the stream is processed; a record whose day field is present but
unparseable raises and aborts the pass. -/
theorem syncDaily_malformed_handling :
    (∀ (ctx : SyncCtx) (s : List DRow) (item : DItem) (rest : List DItem),
      item.id = none → syncDailyRun ctx (item :: rest) s = syncDailyRun ctx rest s) ∧
    (∀ (ctx : SyncCtx) (s : List DRow) (item : DItem) (rest : List DItem) (k : String),
      item.id = some k → item.day = some .malformed →
      syncDailyRun ctx (item :: rest) s = .error ()) := by
  constructor
  · intro ctx s item rest hid
    simp [syncDailyRun, hid]
  · intro ctx s item rest k hid hday
    simp [syncDailyRun, hid, hday, parseDay, Bind.bind, Except.bind]

/-- Witness for `syncDaily_malformed_handling`. -/
theorem syncDaily_malformed_handling_witness :
    ((⟨none, some (.valid 99), some 70, none⟩ : DItem).id = none ∧
      (⟨some "bad", some .malformed, none, none⟩ : DItem).day = some .malformed) ∧
    syncDailyRun ⟨7, 100, 0, true, false, none⟩
        [(⟨none, some (.valid 99), some 70, none⟩ : DItem)] [] =
      syncDailyRun ⟨7, 100, 0, true, false, none⟩ [] [] ∧
    syncDailyRun ⟨7, 100, 0, true, false, none⟩
        [(⟨some "bad", some .malformed, none, none⟩ : DItem)] [] = .error () :=
  ⟨⟨rfl, rfl⟩,
    syncDaily_malformed_handling.1 ⟨7, 100, 0, true, false, none⟩ [] _ [] rfl,
    syncDaily_malformed_handling.2 ⟨7, 100, 0, true, false, none⟩ [] _ [] "bad" rfl rfl⟩

/-! ## C4 — day attribution -/

/-- C4: every sleep segment written by the sleep reconciler (inserted
or, under the `Full` force policy, updated) stores as its local day the
Hong Kong calendar date of the segment's `bedtime_end` instant —
whatever the vendor's own day label says. -/
theorem sleep_day_attribution (ctx : SyncCtx) (summaries : List DItem)
    (s : List SRow) (detail : SItem) (k : String) (t : Int) (out : SSyncOut)
    (hf : ctx.force = true)
    (hk : detail.id = some k)
    (he : detail.bedtime_end = some (.valid t))
    (hrun : syncSleepRun ctx summaries [detail] s = .ok out) :
    ∀ r, lookupS k out.store = some r → r.day = hkDate t := by
  intro r hr
  simp only [syncSleepRun, hk, hf] at hrun
  cases hpd : parseDay detail.day with
  | error e => rw [hpd] at hrun; simp [Bind.bind, Except.bind] at hrun
  | ok d? =>
    rw [hpd] at hrun
    cases hex : lookupS k s with
    | some ex =>
      rw [hex] at hrun
      cases hbs : parseTime detail.bedtime_start with
      | error e => rw [hbs] at hrun; simp [Bind.bind, Except.bind] at hrun
      | ok bs =>
        rw [hbs, he] at hrun
        simp only [parseTime, Bind.bind, Except.bind, syncSleepRun, reduceIte,
          Except.ok.injEq] at hrun
        subst hrun
        simp only [lookupS] at hr
        rw [find?_map_guard SRow.oura_id k
          (updSleepRow detail
            (if detail.sleep_type == some "long_sleep" then summaryFor summaries detail.day
              else none) bs (some t) (sleepDayOf ctx (some t) d?))
          (fun _ => rfl) s] at hr
        cases hfind : (s.find? (fun r0 => r0.oura_id == k)) with
        | none => rw [hfind] at hr; simp at hr
        | some ex2 =>
          rw [hfind] at hr
          simp only [Option.map_some', Option.some.injEq] at hr
          rw [← hr]
          rfl
    | none =>
      rw [hex] at hrun
      cases hbs : parseTime detail.bedtime_start with
      | error e => rw [hbs] at hrun; simp [Bind.bind, Except.bind] at hrun
      | ok bs =>
        rw [hbs, he] at hrun
        simp only [parseTime, Bind.bind, Except.bind, syncSleepRun, reduceIte,
          Except.ok.injEq] at hrun
        subst hrun
        simp only [lookupS] at hr
        rw [List.find?_append] at hr
        rw [show (s.find? (fun r0 => r0.oura_id == k)) = none from hex] at hr
        simp only [Option.none_or] at hr
        rw [List.find?_cons_of_pos _ (by simp [mkSleepRow, hk])] at hr
        simp only [Option.some.injEq] at hr
        rw [← hr]
        rfl

/-- Witness for `sleep_day_attribution`: a segment whose vendor day
label is day 99 but whose `bedtime_end` is 00:30 Hong Kong time on day
100 is stored under day 100 (the day containing 00:30), not the
vendor's label. -/
theorem sleep_day_attribution_witness :
    ((⟨7, 100, 0, true, false, none⟩ : SyncCtx).force = true ∧
      (⟨some "s1", some (.valid 99), some "long_sleep", none,
          some (.valid (1440 * 100 - 480 + 30)), some 24000, none, none,
          some ⟨some 70⟩⟩ : SItem).id = some "s1" ∧
      hkDate (1440 * 100 - 480 + 30) = 100 ∧ (99 : Int) ≠ 100) ∧
    (∀ r, lookupS "s1"
        (match syncSleepRun ⟨7, 100, 0, true, false, none⟩ []
            [⟨some "s1", some (.valid 99), some "long_sleep", none,
              some (.valid (1440 * 100 - 480 + 30)), some 24000, none, none,
              some ⟨some 70⟩⟩] [] with
          | .ok o => o.store
          | .error _ => []) = some r →
      r.day = hkDate (1440 * 100 - 480 + 30)) := by
  refine ⟨⟨rfl, rfl, by decide, by decide⟩, ?_⟩
  intro r hr
  exact sleep_day_attribution ⟨7, 100, 0, true, false, none⟩ [] []
    ⟨some "s1", some (.valid 99), some "long_sleep", none,
      some (.valid (1440 * 100 - 480 + 30)), some 24000, none, none,
      some ⟨some 70⟩⟩ "s1" (1440 * 100 - 480 + 30) _ rfl rfl rfl rfl r hr

/-! ## C5 — significance threshold for new segments -/

/-- C5: inserting a brand-new sleep segment (primary or nap — the
segment type is arbitrary) makes the sync pass's significant-change
result true exactly when the new duration is at least 300 seconds
(5 minutes); a 4-minute segment leaves it false. -/
theorem new_segment_significance (ctx : SyncCtx) (summaries : List DItem)
    (s : List SRow) (detail : SItem) (k : String) (out : SSyncOut)
    (hk : detail.id = some k)
    (hl : lookupS k s = none)
    (hrun : syncSleepRun ctx summaries [detail] s = .ok out) :
    out.significant = decide (300 ≤ detail.total_sleep_duration.getD 0) := by
  simp only [syncSleepRun, hk, hl] at hrun
  cases hpd : parseDay detail.day with
  | error e => rw [hpd] at hrun; simp [Bind.bind, Except.bind] at hrun
  | ok d? =>
    rw [hpd] at hrun
    cases hbs : parseTime detail.bedtime_start with
    | error e => rw [hbs] at hrun; simp [Bind.bind, Except.bind] at hrun
    | ok bs =>
      rw [hbs] at hrun
      cases hbe : parseTime detail.bedtime_end with
      | error e => rw [hbe] at hrun; simp [Bind.bind, Except.bind] at hrun
      | ok be =>
        rw [hbe] at hrun
        simp only [Bind.bind, Except.bind, syncSleepRun, reduceIte,
          Except.ok.injEq] at hrun
        subst hrun
        simp

/-- Witness for `new_segment_significance`: a brand-new 4-minute
(240 s) nap yields a false significance flag. -/
theorem new_segment_significance_witness :
    ((⟨some "n1", some (.valid 100), some "sleep", none, none, some 240, some 2,
        none, some ⟨some 70⟩⟩ : SItem).id = some "n1" ∧
      lookupS "n1" [] = none ∧
      syncSleepRun ⟨7, 100, 0, true, false, none⟩ []
          [⟨some "n1", some (.valid 100), some "sleep", none, none, some 240, some 2,
            none, some ⟨some 70⟩⟩] [] =
        .ok ⟨[mkSleepRow ⟨7, 100, 0, true, false, none⟩
                ⟨some "n1", some (.valid 100), some "sleep", none, none, some 240, some 2,
                  none, some ⟨some 70⟩⟩ none none none 100], 1, false⟩) ∧
    (⟨[mkSleepRow ⟨7, 100, 0, true, false, none⟩
        ⟨some "n1", some (.valid 100), some "sleep", none, none, some 240, some 2,
          none, some ⟨some 70⟩⟩ none none none 100], 1, false⟩ : SSyncOut).significant =
      decide (300 ≤ (⟨some "n1", some (.valid 100), some "sleep", none, none, some 240,
        some 2, none, some ⟨some 70⟩⟩ : SItem).total_sleep_duration.getD 0) :=
  ⟨⟨rfl, rfl, by rfl⟩,
    new_segment_significance ⟨7, 100, 0, true, false, none⟩ [] []
      ⟨some "n1", some (.valid 100), some "sleep", none, none, some 240, some 2,
        none, some ⟨some 70⟩⟩ "n1" _ rfl rfl (by rfl)⟩

/-! ## C3 — score decomposition round-trip -/

/-- C3: for a day whose stored segments are one primary (`long_sleep`)
segment carrying the cumulative daily score `B` (with no delta of its
own) and naps carrying `sleep_score_delta` values, the endpoint's
displayed base score is `B` minus the sum of the nap deltas, so the
cumulative score decomposes as base plus the deltas and decomposition
recovers the base exactly. -/
theorem score_decomposition (p : SRow) (naps : List SRow) (B : Int)
    (hp : p.sleep_type = some "long_sleep")
    (hs : p.sleep_score = some B) (hB : B ≠ 0)
    (hd : p.sleep_score_delta.getD 0 = 0)
    (hn : ∀ r ∈ naps, r.sleep_type ≠ some "long_sleep") :
    summaryScoreOf (p :: naps) = some B ∧
    baseScoreOf (p :: naps) =
      some (B - (naps.map (fun r => r.sleep_score_delta.getD 0)).sum) ∧
    B = (B - (naps.map (fun r => r.sleep_score_delta.getD 0)).sum) +
        (naps.map (fun r => r.sleep_score_delta.getD 0)).sum := by
  have hperm : (sortedDayRecords (p :: naps)).Perm (p :: naps) :=
    List.perm_insertionSort groupLE (p :: naps)
  have hpred : (p.sleep_type == some "long_sleep" && truthy p.sleep_score) = true := by
    simp [hp, hs, truthy, hB]
  have hmem : p ∈ sortedDayRecords (p :: naps) :=
    hperm.mem_iff.2 (List.mem_cons_self _ _)
  have hsum : summaryScoreOf (p :: naps) = some B := by
    unfold summaryScoreOf
    cases hfind : (sortedDayRecords (p :: naps)).find?
        (fun r => r.sleep_type == some "long_sleep" && truthy r.sleep_score) with
    | none =>
      rw [List.find?_eq_none] at hfind
      exact absurd hpred (by simpa using hfind p hmem)
    | some x =>
      have hxmem : x ∈ p :: naps := hperm.mem_iff.1 (List.mem_of_find?_eq_some hfind)
      have hxpred := List.find?_some hfind
      have hxtype : x.sleep_type = some "long_sleep" := by
        simp only [Bool.and_eq_true] at hxpred
        simpa using hxpred.1
      have hxp : x = p := by
        rcases List.mem_cons.1 hxmem with h | h
        · exact h
        · exact absurd hxtype (hn x h)
      subst hxp
      simp [hs]
  have htd : totalDeltaOf (p :: naps) =
      (naps.map (fun r => r.sleep_score_delta.getD 0)).sum := by
    unfold totalDeltaOf
    rw [(hperm.map (fun r => r.sleep_score_delta.getD 0)).sum_eq]
    simp [hd]
  refine ⟨hsum, ?_, by omega⟩
  unfold baseScoreOf
  rw [hsum, htd]
  simp [hB]

/-- Witness for `score_decomposition`: a primary with cumulative score
85 and one nap with delta 5 decompose into base 80 with 85 = 80 + 5. -/
theorem score_decomposition_witness :
    ((⟨1, "p", 100, none, none, some 20000, some "long_sleep", some 85, none, none,
        (none, {}), 0⟩ : SRow).sleep_type = some "long_sleep" ∧
      (⟨1, "p", 100, none, none, some 20000, some "long_sleep", some 85, none, none,
        (none, {}), 0⟩ : SRow).sleep_score = some 85 ∧ (85 : Int) ≠ 0 ∧
      (∀ r ∈ [(⟨1, "na", 100, none, none, some 3000, some "sleep", some 70, some 5,
          none, (none, {}), 0⟩ : SRow)], r.sleep_type ≠ some "long_sleep")) ∧
    (summaryScoreOf
        [⟨1, "p", 100, none, none, some 20000, some "long_sleep", some 85, none, none,
          (none, {}), 0⟩,
         ⟨1, "na", 100, none, none, some 3000, some "sleep", some 70, some 5, none,
          (none, {}), 0⟩] = some 85 ∧
      baseScoreOf
        [⟨1, "p", 100, none, none, some 20000, some "long_sleep", some 85, none, none,
          (none, {}), 0⟩,
         ⟨1, "na", 100, none, none, some 3000, some "sleep", some 70, some 5, none,
          (none, {}), 0⟩] =
        some (85 - ([(⟨1, "na", 100, none, none, some 3000, some "sleep", some 70,
          some 5, none, (none, {}), 0⟩ : SRow)].map
            (fun r => r.sleep_score_delta.getD 0)).sum) ∧
      (85 : Int) = (85 - ([(⟨1, "na", 100, none, none, some 3000, some "sleep", some 70,
          some 5, none, (none, {}), 0⟩ : SRow)].map
            (fun r => r.sleep_score_delta.getD 0)).sum) +
        ([(⟨1, "na", 100, none, none, some 3000, some "sleep", some 70, some 5, none,
          (none, {}), 0⟩ : SRow)].map (fun r => r.sleep_score_delta.getD 0)).sum) :=
  ⟨⟨rfl, rfl, by decide, by decide⟩,
    score_decomposition
      ⟨1, "p", 100, none, none, some 20000, some "long_sleep", some 85, none, none,
        (none, {}), 0⟩
      [⟨1, "na", 100, none, none, some 3000, some "sleep", some 70, some 5, none,
        (none, {}), 0⟩]
      85 rfl rfl (by decide) rfl (by decide)⟩

/-! ## C7 — baseline boundary and fallback -/

/-- C7: the 90-day sleep-need baseline returns `None` (insufficient)
with exactly 29 qualifying nights (durations within 3h–12h), returns a
concrete baseline with exactly 30, and — whenever the IQR outlier
filter leaves fewer than 20 nights — is computed from the unfiltered
qualifying sample. -/
theorem baseline_boundary :
    (∀ (s : List SRow) (t : Int), (baselineDurations s t).length = 29 →
      calculateBaselineSleep s t = none) ∧
    (∀ (s : List SRow) (t : Int), (baselineDurations s t).length = 30 →
      (calculateBaselineSleep s t).isSome) ∧
    (∀ (s : List SRow) (t : Int), 30 ≤ (baselineDurations s t).length →
      (baselineFiltered s t).length < 20 →
      calculateBaselineSleep s t = some (pyInt (listMean (baselineDurations s t)))) := by
  refine ⟨fun s t h => ?_, fun s t h => ?_, fun s t h1 h2 => ?_⟩
  · simp [calculateBaselineSleep, h]
  · simp [calculateBaselineSleep, h]
  · simp [calculateBaselineSleep, Nat.not_lt.2 h1, h2]

/-- Witness for `baseline_boundary`: a 29-night store yields `None`; a
30-night store yields a baseline; a 30-night store whose IQR filter
keeps only its 18 identical middle values falls back to the unfiltered
mean. -/
theorem baseline_boundary_witness :
    ((baselineDurations ((List.range 29).map (fun i =>
        (⟨1, "x", 100 - (i : Int), none, none, some 21600, some "long_sleep", none,
          none, none, (none, {}), 0⟩ : SRow))) 100).length = 29 ∧
      calculateBaselineSleep ((List.range 29).map (fun i =>
        (⟨1, "x", 100 - (i : Int), none, none, some 21600, some "long_sleep", none,
          none, none, (none, {}), 0⟩ : SRow))) 100 = none) ∧
    ((baselineDurations ((List.range 30).map (fun i =>
        (⟨1, "x", 100 - (i : Int), none, none, some 21600, some "long_sleep", none,
          none, none, (none, {}), 0⟩ : SRow))) 100).length = 30 ∧
      (calculateBaselineSleep ((List.range 30).map (fun i =>
        (⟨1, "x", 100 - (i : Int), none, none, some 21600, some "long_sleep", none,
          none, none, (none, {}), 0⟩ : SRow))) 100).isSome) ∧
    (30 ≤ (baselineDurations (((List.range 6).map (fun i =>
          (⟨1, "a", 20 + (i : Int), none, none, some 12000, some "long_sleep", none,
            none, none, (none, {}), 0⟩ : SRow))) ++
        ((List.range 18).map (fun i =>
          (⟨1, "b", 30 + (i : Int), none, none, some 27000, some "long_sleep", none,
            none, none, (none, {}), 0⟩ : SRow))) ++
        ((List.range 6).map (fun i =>
          (⟨1, "c", 50 + (i : Int), none, none, some 42000, some "long_sleep", none,
            none, none, (none, {}), 0⟩ : SRow)))) 100).length ∧
      (baselineFiltered (((List.range 6).map (fun i =>
          (⟨1, "a", 20 + (i : Int), none, none, some 12000, some "long_sleep", none,
            none, none, (none, {}), 0⟩ : SRow))) ++
        ((List.range 18).map (fun i =>
          (⟨1, "b", 30 + (i : Int), none, none, some 27000, some "long_sleep", none,
            none, none, (none, {}), 0⟩ : SRow))) ++
        ((List.range 6).map (fun i =>
          (⟨1, "c", 50 + (i : Int), none, none, some 42000, some "long_sleep", none,
            none, none, (none, {}), 0⟩ : SRow)))) 100).length < 20 ∧
      calculateBaselineSleep (((List.range 6).map (fun i =>
          (⟨1, "a", 20 + (i : Int), none, none, some 12000, some "long_sleep", none,
            none, none, (none, {}), 0⟩ : SRow))) ++
        ((List.range 18).map (fun i =>
          (⟨1, "b", 30 + (i : Int), none, none, some 27000, some "long_sleep", none,
            none, none, (none, {}), 0⟩ : SRow))) ++
        ((List.range 6).map (fun i =>
          (⟨1, "c", 50 + (i : Int), none, none, some 42000, some "long_sleep", none,
            none, none, (none, {}), 0⟩ : SRow)))) 100 =
        some (pyInt (listMean (baselineDurations (((List.range 6).map (fun i =>
            (⟨1, "a", 20 + (i : Int), none, none, some 12000, some "long_sleep", none,
              none, none, (none, {}), 0⟩ : SRow))) ++
          ((List.range 18).map (fun i =>
            (⟨1, "b", 30 + (i : Int), none, none, some 27000, some "long_sleep", none,
              none, none, (none, {}), 0⟩ : SRow))) ++
          ((List.range 6).map (fun i =>
            (⟨1, "c", 50 + (i : Int), none, none, some 42000, some "long_sleep", none,
              none, none, (none, {}), 0⟩ : SRow)))) 100)))) :=
  ⟨⟨rfl, baseline_boundary.1 _ 100 rfl⟩,
   ⟨rfl, baseline_boundary.2.1 _ 100 rfl⟩,
   ⟨of_decide_eq_true (by with_unfolding_all rfl),
    of_decide_eq_true (by with_unfolding_all rfl),
    baseline_boundary.2.2 _ 100 (of_decide_eq_true (by with_unfolding_all rfl))
      (of_decide_eq_true (by with_unfolding_all rfl))⟩⟩

/-! ## C10 — the debt estimator reads only day and duration -/

/-- Two stored sleep rows agreeing on the only columns the sleep-debt
estimator reads: the local day and the duration.  Segment type, scores
and everything else may differ. -/
def durRel (a b : SRow) : Prop :=
  a.day = b.day ∧ a.total_sleep_duration = b.total_sleep_duration

theorem durRel_map_duration {l₁ l₂ : List SRow} (h : List.Forall₂ durRel l₁ l₂) :
    l₁.map (·.total_sleep_duration) = l₂.map (·.total_sleep_duration) := by
  induction h with
  | nil => rfl
  | cons hab _ ih => simp [hab.2, ih]

theorem durRel_filter_debt {l₁ l₂ : List SRow} (t : Int)
    (h : List.Forall₂ durRel l₁ l₂) :
    List.Forall₂ durRel
      (l₁.filter (fun r => decide (t - 13 ≤ r.day) && decide (r.day ≤ t) &&
        r.total_sleep_duration.isSome))
      (l₂.filter (fun r => decide (t - 13 ≤ r.day) && decide (r.day ≤ t) &&
        r.total_sleep_duration.isSome)) := by
  induction h with
  | nil => exact .nil
  | cons hab htail ih =>
    rename_i a b l₁ l₂
    have hc : (decide (t - 13 ≤ a.day) && decide (a.day ≤ t) &&
        a.total_sleep_duration.isSome) =
        (decide (t - 13 ≤ b.day) && decide (b.day ≤ t) &&
          b.total_sleep_duration.isSome) := by
      rw [hab.1, hab.2]
    by_cases hcb : (decide (t - 13 ≤ b.day) && decide (b.day ≤ t) &&
        b.total_sleep_duration.isSome) = true
    · rw [List.filter_cons, List.filter_cons, hc, if_pos hcb, if_pos hcb]
      exact .cons hab ih
    · rw [List.filter_cons, List.filter_cons, hc, if_neg hcb, if_neg hcb]
      exact ih

theorem durRel_orderedInsert {a b : SRow} {l₁ l₂ : List SRow}
    (hab : durRel a b) (h : List.Forall₂ durRel l₁ l₂) :
    List.Forall₂ durRel
      (List.orderedInsert (fun x y => y.day ≤ x.day) a l₁)
      (List.orderedInsert (fun x y => y.day ≤ x.day) b l₂) := by
  induction h with
  | nil => exact .cons hab .nil
  | cons hxy htail ih =>
    rename_i x y l₁ l₂
    have hcond : (y.day ≤ b.day) = (x.day ≤ a.day) := by rw [hab.1, hxy.1]
    by_cases hc : x.day ≤ a.day
    · rw [List.orderedInsert, List.orderedInsert, if_pos hc, if_pos (hcond ▸ hc)]
      exact .cons hab (.cons hxy htail)
    · rw [List.orderedInsert, List.orderedInsert, if_neg hc, if_neg (hcond ▸ hc)]
      exact .cons hxy ih

theorem durRel_insertionSort {l₁ l₂ : List SRow} (h : List.Forall₂ durRel l₁ l₂) :
    List.Forall₂ durRel
      (List.insertionSort (fun x y => y.day ≤ x.day) l₁)
      (List.insertionSort (fun x y => y.day ≤ x.day) l₂) := by
  induction h with
  | nil => exact .nil
  | cons hab _ ih =>
    rw [List.insertionSort, List.insertionSort]
    exact durRel_orderedInsert hab ih

theorem durRel_debtRecords {s₁ s₂ : List SRow} (t : Int)
    (h : List.Forall₂ durRel s₁ s₂) :
    List.Forall₂ durRel (debtRecords s₁ t) (debtRecords s₂ t) :=
  durRel_insertionSort (durRel_filter_debt t h)

theorem baselineDurations_congr {s₁ s₂ : List SRow} (t : Int)
    (h : List.Forall₂ durRel s₁ s₂) :
    baselineDurations s₁ t = baselineDurations s₂ t := by
  induction h with
  | nil => rfl
  | cons hab _ ih =>
    rename_i a b l₁ l₂
    unfold baselineDurations at *
    rw [List.filterMap_cons, List.filterMap_cons, ih, hab.1, hab.2]

theorem debtFold_congr (b : ℚ) {l₁ l₂ : List SRow}
    (h : l₁.map (·.total_sleep_duration) = l₂.map (·.total_sleep_duration)) :
    debtFold b l₁ = debtFold b l₂ := by
  unfold debtFold
  have H : ∀ (l₁ l₂ : List SRow),
      l₁.map (·.total_sleep_duration) = l₂.map (·.total_sleep_duration) →
      ∀ (n : Nat) (acc : ℚ × ℚ),
      (List.enumFrom n l₁).foldl
        (fun acc p =>
          let actual : ℚ := ((p.2.total_sleep_duration.getD 0 : Int) : ℚ) / 60
          let daily_debt := b - actual
          let weight : ℚ := 1 - (p.1 : ℚ) * (1 / 2) / 13
          (acc.1 + daily_debt * weight, acc.2 + weight)) acc =
      (List.enumFrom n l₂).foldl
        (fun acc p =>
          let actual : ℚ := ((p.2.total_sleep_duration.getD 0 : Int) : ℚ) / 60
          let daily_debt := b - actual
          let weight : ℚ := 1 - (p.1 : ℚ) * (1 / 2) / 13
          (acc.1 + daily_debt * weight, acc.2 + weight)) acc := by
    intro l₁
    induction l₁ with
    | nil =>
      intro l₂ hm n acc
      cases l₂ with
      | nil => rfl
      | cons c l₂ => simp at hm
    | cons a l₁ ih =>
      intro l₂ hm n acc
      cases l₂ with
      | nil => simp at hm
      | cons c l₂ =>
        simp only [List.map_cons, List.cons.injEq] at hm
        simp only [List.enumFrom, List.foldl_cons]
        rw [hm.1]
        exact ih l₂ hm.2 (n + 1) _
  exact H l₁ l₂ h 0 (0, 0)

/-- C10: the sleep-debt estimator's "nights" are individual stored
sleep rows: its whole result depends only on each row's local day and
duration (segment type and all other columns are ignored, so naps enter
the 14-day weighted sum and the 90-day baseline exactly like primary
sleeps), and the 14-day night count is the number of stored rows in the
window with a non-null duration, with no segment-type or
minimum-duration filter. -/
theorem debt_counts_all_segments :
    (∀ (s₁ s₂ : List SRow) (t : Int), List.Forall₂ durRel s₁ s₂ →
      calculateSleepDebt s₁ t = calculateSleepDebt s₂ t) ∧
    (∀ (s : List SRow) (t : Int),
      (debtRecords s t).length =
        (s.filter (fun r => decide (t - 13 ≤ r.day) && decide (r.day ≤ t) &&
          r.total_sleep_duration.isSome)).length) := by
  constructor
  · intro s₁ s₂ t h
    have hdur := baselineDurations_congr t h
    have hbase : calculateBaselineSleep s₁ t = calculateBaselineSleep s₂ t := by
      unfold calculateBaselineSleep baselineFiltered
      rw [hdur]
    have hrecs := durRel_debtRecords t h
    have hmap := durRel_map_duration hrecs
    have hlen : (debtRecords s₁ t).length = (debtRecords s₂ t).length :=
      hrecs.length_eq
    have hmapq : (debtRecords s₁ t).map
        (fun r => ((r.total_sleep_duration.getD 0 : Int) : ℚ) / 60) =
        (debtRecords s₂ t).map
        (fun r => ((r.total_sleep_duration.getD 0 : Int) : ℚ) / 60) := by
      have h1 := congrArg
        (List.map (fun d? : Option Int => ((d?.getD 0 : Int) : ℚ) / 60)) hmap
      simpa [List.map_map, Function.comp] using h1
    have htrend : debtTrend (debtRecords s₁ t) = debtTrend (debtRecords s₂ t) := by
      unfold debtTrend
      simp only [List.map_take, List.map_drop, hlen, hmapq]
    unfold calculateSleepDebt
    rw [hbase]
    cases calculateBaselineSleep s₂ t with
    | none => rfl
    | some bl =>
      simp only [hlen, debtFold_congr (bl : ℚ) hmap, hmapq, htrend]
  · intro s t
    unfold debtRecords
    rw [List.length_insertionSort]

/-- Witness for `debt_counts_all_segments`: retyping a primary row and
a same-day nap row (types and scores changed, day and duration kept)
leaves the debt result unchanged. -/
theorem debt_counts_all_segments_witness :
    List.Forall₂ durRel
      [⟨1, "p", 100, none, none, some 27000, some "long_sleep", some 85, none, none,
        (none, {}), 0⟩,
       ⟨1, "n", 100, none, none, some 3000, some "sleep", some 70, some 5, none,
        (none, {}), 0⟩]
      [⟨2, "x", 100, none, none, some 27000, some "nap", none, none, none,
        (none, {}), 9⟩,
       ⟨2, "y", 100, none, none, some 3000, some "long_sleep", some 1, none, none,
        (none, {}), 9⟩] ∧
    calculateSleepDebt
      [⟨1, "p", 100, none, none, some 27000, some "long_sleep", some 85, none, none,
        (none, {}), 0⟩,
       ⟨1, "n", 100, none, none, some 3000, some "sleep", some 70, some 5, none,
        (none, {}), 0⟩] 100 =
    calculateSleepDebt
      [⟨2, "x", 100, none, none, some 27000, some "nap", none, none, none,
        (none, {}), 9⟩,
       ⟨2, "y", 100, none, none, some 3000, some "long_sleep", some 1, none, none,
        (none, {}), 9⟩] 100 :=
  ⟨List.Forall₂.cons ⟨rfl, rfl⟩ (List.Forall₂.cons ⟨rfl, rfl⟩ List.Forall₂.nil),
    debt_counts_all_segments.1 _ _ 100
      (List.Forall₂.cons ⟨rfl, rfl⟩ (List.Forall₂.cons ⟨rfl, rfl⟩ List.Forall₂.nil))⟩

/-! ## C8 — debt window boundary and weighted formula -/

/-- The accumulation loop of `calculate_sleep_debt` computes the two
sums `Σ weight_i · (baseline − actual_i)` and `Σ weight_i` over the
enumerated records. -/
theorem debtFold_eq_sum (b : ℚ) (l : List SRow) :
    debtFold b l =
      ((l.enum.map (fun p =>
          ((b : ℚ) - ((p.2.total_sleep_duration.getD 0 : Int) : ℚ) / 60) *
            (1 - (p.1 : ℚ) * (1 / 2) / 13))).sum,
       (l.enum.map (fun p => 1 - (p.1 : ℚ) * (1 / 2) / 13)).sum) := by
  unfold debtFold
  have H : ∀ (l : List SRow) (n : Nat) (acc : ℚ × ℚ),
      (List.enumFrom n l).foldl
        (fun acc p =>
          let actual : ℚ := ((p.2.total_sleep_duration.getD 0 : Int) : ℚ) / 60
          let daily_debt := b - actual
          let weight : ℚ := 1 - (p.1 : ℚ) * (1 / 2) / 13
          (acc.1 + daily_debt * weight, acc.2 + weight)) acc =
      (acc.1 + ((List.enumFrom n l).map (fun p =>
          ((b : ℚ) - ((p.2.total_sleep_duration.getD 0 : Int) : ℚ) / 60) *
            (1 - (p.1 : ℚ) * (1 / 2) / 13))).sum,
       acc.2 + ((List.enumFrom n l).map
          (fun p => 1 - (p.1 : ℚ) * (1 / 2) / 13)).sum) := by
    intro l
    induction l with
    | nil => intro n acc; simp
    | cons a tl ih =>
      intro n acc
      simp only [List.enumFrom, List.foldl_cons, List.map_cons, List.sum_cons]
      rw [ih (n + 1)]
      dsimp only
      rw [Prod.mk.injEq]
      constructor <;> ring
  have h0 := H l 0 (0, 0)
  simpa using h0

/-- C8: with a computable baseline, the trailing-14-day debt estimate
is the `insufficient` result with exactly 4 night records and a
concrete estimate with exactly 5; and for n ≥ 5 records ordered
most-recent-first with index `i` from 0, the reported debt is
`Σ weight_i · (baseline − actual_i) / Σ weight_i` truncated to an
integer, with `weight_i = 1 − i·0.5/13` (the extra hypothesis
`0 < Σ weight_i` is the code's own guard). -/
theorem debt_window_and_formula :
    (∀ (s : List SRow) (t : Int) (b : Int),
      calculateBaselineSleep s t = some b → (debtRecords s t).length = 4 →
      calculateSleepDebt s t = some ⟨none, b, none, "unknown", none, "insufficient"⟩) ∧
    (∀ (s : List SRow) (t : Int) (b : Int),
      calculateBaselineSleep s t = some b → (debtRecords s t).length = 5 →
      ∃ r, calculateSleepDebt s t = some r ∧ r.sleep_debt_minutes.isSome) ∧
    (∀ (s : List SRow) (t : Int) (b : Int) (r : DebtResult),
      calculateBaselineSleep s t = some b → calculateSleepDebt s t = some r →
      5 ≤ (debtRecords s t).length →
      0 < ((debtRecords s t).enum.map (fun p => 1 - (p.1 : ℚ) * (1 / 2) / 13)).sum →
      r.sleep_debt_minutes = some (pyInt
        ((((debtRecords s t).enum.map (fun p =>
            ((b : ℚ) - ((p.2.total_sleep_duration.getD 0 : Int) : ℚ) / 60) *
              (1 - (p.1 : ℚ) * (1 / 2) / 13))).sum) /
          (((debtRecords s t).enum.map (fun p => 1 - (p.1 : ℚ) * (1 / 2) / 13)).sum)))) := by
  refine ⟨fun s t b hb h4 => ?_, fun s t b hb h5 => ?_, fun s t b r hb hr h5 hw => ?_⟩
  · unfold calculateSleepDebt
    rw [hb]
    simp [h4]
  · unfold calculateSleepDebt
    rw [hb]
    simp only [h5]
    rw [if_neg (by norm_num)]
    exact ⟨_, rfl, rfl⟩
  · unfold calculateSleepDebt at hr
    rw [hb] at hr
    dsimp only at hr
    rw [if_neg (Nat.not_lt.2 h5)] at hr
    rw [debtFold_eq_sum (b : ℚ) (debtRecords s t)] at hr
    dsimp only at hr
    rw [if_pos hw] at hr
    rw [Option.some.injEq] at hr
    rw [← hr]

set_option maxRecDepth 8000 in
/-- Witness for `debt_window_and_formula`: a store of 30 six-hour
nights (baseline 360 min) with exactly 4, respectively 5, nights in the
trailing 14 days; with 5 equal nights the weighted debt is 0. -/
theorem debt_window_and_formula_witness :
    (calculateBaselineSleep (((List.range 4).map (fun i =>
        (⟨1, "x", 100 - (i : Int), none, none, some 21600, some "long_sleep", none,
          none, none, (none, {}), 0⟩ : SRow))) ++
      ((List.range 26).map (fun i =>
        (⟨1, "y", 50 + (i : Int), none, none, some 21600, some "long_sleep", none,
          none, none, (none, {}), 0⟩ : SRow)))) 100 = some 360 ∧
      (debtRecords (((List.range 4).map (fun i =>
        (⟨1, "x", 100 - (i : Int), none, none, some 21600, some "long_sleep", none,
          none, none, (none, {}), 0⟩ : SRow))) ++
      ((List.range 26).map (fun i =>
        (⟨1, "y", 50 + (i : Int), none, none, some 21600, some "long_sleep", none,
          none, none, (none, {}), 0⟩ : SRow)))) 100).length = 4 ∧
      calculateSleepDebt (((List.range 4).map (fun i =>
        (⟨1, "x", 100 - (i : Int), none, none, some 21600, some "long_sleep", none,
          none, none, (none, {}), 0⟩ : SRow))) ++
      ((List.range 26).map (fun i =>
        (⟨1, "y", 50 + (i : Int), none, none, some 21600, some "long_sleep", none,
          none, none, (none, {}), 0⟩ : SRow)))) 100 =
        some ⟨none, 360, none, "unknown", none, "insufficient"⟩) ∧
    (∃ r, calculateSleepDebt (((List.range 5).map (fun i =>
        (⟨1, "x", 100 - (i : Int), none, none, some 21600, some "long_sleep", none,
          none, none, (none, {}), 0⟩ : SRow))) ++
      ((List.range 25).map (fun i =>
        (⟨1, "y", 50 + (i : Int), none, none, some 21600, some "long_sleep", none,
          none, none, (none, {}), 0⟩ : SRow)))) 100 = some r ∧
      r.sleep_debt_minutes.isSome) ∧
    ((⟨some 0, 360, some 360, "stable", some 85, "limited"⟩ :
        DebtResult).sleep_debt_minutes =
      some (pyInt
        ((((debtRecords (((List.range 5).map (fun i =>
            (⟨1, "x", 100 - (i : Int), none, none, some 21600, some "long_sleep", none,
              none, none, (none, {}), 0⟩ : SRow))) ++
          ((List.range 25).map (fun i =>
            (⟨1, "y", 50 + (i : Int), none, none, some 21600, some "long_sleep", none,
              none, none, (none, {}), 0⟩ : SRow)))) 100).enum.map (fun p =>
            ((360 : ℚ) - ((p.2.total_sleep_duration.getD 0 : Int) : ℚ) / 60) *
              (1 - (p.1 : ℚ) * (1 / 2) / 13))).sum) /
          (((debtRecords (((List.range 5).map (fun i =>
            (⟨1, "x", 100 - (i : Int), none, none, some 21600, some "long_sleep", none,
              none, none, (none, {}), 0⟩ : SRow))) ++
          ((List.range 25).map (fun i =>
            (⟨1, "y", 50 + (i : Int), none, none, some 21600, some "long_sleep", none,
              none, none, (none, {}), 0⟩ : SRow)))) 100).enum.map
            (fun p => 1 - (p.1 : ℚ) * (1 / 2) / 13)).sum)))) :=
  ⟨⟨by with_unfolding_all rfl, rfl,
    debt_window_and_formula.1 _ 100 360 (by with_unfolding_all rfl) rfl⟩,
   debt_window_and_formula.2.1 _ 100 360 (by with_unfolding_all rfl) rfl,
   debt_window_and_formula.2.2 _ 100 360 ⟨some 0, 360, some 360, "stable", some 85,
      "limited"⟩
     (by with_unfolding_all rfl) (by with_unfolding_all rfl)
     (of_decide_eq_true (by with_unfolding_all rfl))
     (of_decide_eq_true (by with_unfolding_all rfl))⟩

/-! ## C1 — idempotent upsert under the `Full` (force) policy -/

/-- The external ids of the stored rows, in store order. -/
def idsOfD (s : List DRow) : List String := s.map (·.oura_id)

theorem idsOfD_map_guard (k : String) (item : DItem) (d : Option Int)
    (s : List DRow) :
    idsOfD (s.map (fun r => if r.oura_id == k then updDailyRow item d r else r)) =
      idsOfD s := by
  unfold idsOfD
  rw [List.map_map]
  apply List.map_congr_left
  intro a _
  by_cases h : (a.oura_id == k) = true <;> simp [Function.comp, h, updDailyRow]

theorem mem_idsOfD_of_lookup {k : String} {s : List DRow} {r : DRow}
    (h : lookupD k s = some r) : k ∈ idsOfD s := by
  have hm := List.mem_of_find?_eq_some h
  have hk : r.oura_id = k := by simpa using List.find?_some h
  exact hk ▸ List.mem_map_of_mem _ hm

theorem not_mem_idsOfD_of_lookup_none {k : String} {s : List DRow}
    (h : lookupD k s = none) : k ∉ idsOfD s := by
  intro hk
  obtain ⟨r, hr, hrk⟩ := List.mem_map.1 hk
  have := List.find?_eq_none.1 h r hr
  simp [hrk] at this

theorem updDailyRow_idem (item : DItem) (d : Option Int) (r : DRow) :
    updDailyRow item d (updDailyRow item d r) = updDailyRow item d r := by
  cases d <;> rfl

theorem updDailyRow_mk (ctx : SyncCtx) (item : DItem) (d : Option Int) :
    updDailyRow item d (mkDailyRow ctx item d) = mkDailyRow ctx item d := by
  cases d <;> rfl

/-- Inversion principle for one loop iteration of
`_sync_daily_sleep_data`. -/
theorem syncDailyRun_cons_inv (ctx : SyncCtx) (item : DItem) (rest : List DItem)
    (s : List DRow) (out : DSyncOut)
    (h : syncDailyRun ctx (item :: rest) s = .ok out) :
    (item.id = none ∧ syncDailyRun ctx rest s = .ok out) ∨
    (∃ k d, item.id = some k ∧ parseDay item.day = .ok d ∧
      ((∃ ex, lookupD k s = some ex ∧ shouldForce ctx d = true ∧
        ∃ o, syncDailyRun ctx rest
            (s.map (fun r => if r.oura_id == k then updDailyRow item d r else r)) =
            .ok o ∧
          out = ⟨o.store, o.count + 1,
            dailyScoreChanged ex.score item.score || o.significant, o.inserted⟩) ∨
      (∃ ex, lookupD k s = some ex ∧ shouldForce ctx d = false ∧
        syncDailyRun ctx rest s = .ok out) ∨
      (lookupD k s = none ∧
        ∃ o, syncDailyRun ctx rest (s ++ [mkDailyRow ctx item d]) = .ok o ∧
          out = ⟨o.store, o.count + 1, true, k :: o.inserted⟩))) := by
  cases hid : item.id with
  | none =>
    left
    refine ⟨rfl, ?_⟩
    simpa [syncDailyRun, hid] using h
  | some k =>
    right
    cases hpd : parseDay item.day with
    | error e =>
      exfalso
      simp [syncDailyRun, hid, hpd, Bind.bind, Except.bind] at h
    | ok d =>
      refine ⟨k, d, rfl, rfl, ?_⟩
      simp only [syncDailyRun, hid, hpd, Bind.bind, Except.bind] at h
      cases hex : lookupD k s with
      | some ex =>
        cases hsf : shouldForce ctx d with
        | true =>
          left
          simp only [hex, hsf] at h
          cases hrec : syncDailyRun ctx rest
              (s.map (fun r => if r.oura_id == k then updDailyRow item d r else r)) with
          | error e => rw [hrec] at h; exact absurd h (by simp)
          | ok o =>
            simp only [hrec, Except.ok.injEq] at h
            exact ⟨ex, rfl, rfl, o, rfl, h.symm⟩
        | false =>
          right; left
          simp only [hex, hsf] at h
          exact ⟨ex, rfl, rfl, h⟩
      | none =>
        right; right
        simp only [hex] at h
        cases hrec : syncDailyRun ctx rest (s ++ [mkDailyRow ctx item d]) with
        | error e => rw [hrec] at h; exact absurd h (by simp)
        | ok o =>
          simp only [hrec, Except.ok.injEq] at h
          exact ⟨rfl, o, rfl, h.symm⟩

theorem syncDailyRun_nil_inv (ctx : SyncCtx) (s : List DRow) (out : DSyncOut)
    (h : syncDailyRun ctx [] s = .ok out) : out = ⟨s, 0, false, []⟩ := by
  simp only [syncDailyRun, Except.ok.injEq] at h
  exact h.symm

/-- The ids after a run are the ids before plus the inserted ids, in
order. -/
theorem syncDaily_ids (ctx : SyncCtx) (items : List DItem) :
    ∀ (s : List DRow) (out : DSyncOut), syncDailyRun ctx items s = .ok out →
      idsOfD out.store = idsOfD s ++ out.inserted := by
  induction items with
  | nil =>
    intro s out h
    rw [syncDailyRun_nil_inv ctx s out h]
    simp
  | cons item rest ih =>
    intro s out h
    rcases syncDailyRun_cons_inv ctx item rest s out h with
      ⟨_, hr⟩ | ⟨k, d, hid, hpd, ⟨ex, hex, hsf, o, hrec, hout⟩ |
        ⟨ex, hex, hsf, hr⟩ | ⟨hex, o, hrec, hout⟩⟩
    · exact ih s out hr
    · rw [hout]
      have := ih _ o hrec
      rw [idsOfD_map_guard] at this
      simpa using this
    · exact ih s out hr
    · rw [hout]
      have := ih _ o hrec
      have hids : idsOfD (s ++ [mkDailyRow ctx item d]) = idsOfD s ++ [k] := by
        unfold idsOfD
        rw [List.map_append]
        simp [mkDailyRow, hid]
      rw [hids] at this
      simpa [List.append_assoc] using this

/-- Every id inserted by a run was absent from the starting store. -/
theorem syncDaily_inserted_new (ctx : SyncCtx) (items : List DItem) :
    ∀ (s : List DRow) (out : DSyncOut), syncDailyRun ctx items s = .ok out →
      ∀ x ∈ out.inserted, x ∉ idsOfD s := by
  induction items with
  | nil =>
    intro s out h
    rw [syncDailyRun_nil_inv ctx s out h]
    simp
  | cons item rest ih =>
    intro s out h
    rcases syncDailyRun_cons_inv ctx item rest s out h with
      ⟨_, hr⟩ | ⟨k, d, hid, hpd, ⟨ex, hex, hsf, o, hrec, hout⟩ |
        ⟨ex, hex, hsf, hr⟩ | ⟨hex, o, hrec, hout⟩⟩
    · exact ih s out hr
    · rw [hout]
      intro x hx
      have := ih _ o hrec x hx
      rw [idsOfD_map_guard] at this
      exact this
    · exact ih s out hr
    · rw [hout]
      intro x hx
      rcases List.mem_cons.1 hx with rfl | hx
      · exact not_mem_idsOfD_of_lookup_none hex
      · intro hmem
        have := ih _ o hrec x hx
        apply this
        unfold idsOfD at *
        rw [List.map_append]
        exact List.mem_append_left _ hmem

/-- The inserted ids form a sublist of the stream's ids. -/
theorem syncDaily_inserted_sublist (ctx : SyncCtx) (items : List DItem) :
    ∀ (s : List DRow) (out : DSyncOut), syncDailyRun ctx items s = .ok out →
      out.inserted.Sublist (items.filterMap DItem.id) := by
  induction items with
  | nil =>
    intro s out h
    rw [syncDailyRun_nil_inv ctx s out h]
    simp
  | cons item rest ih =>
    intro s out h
    rcases syncDailyRun_cons_inv ctx item rest s out h with
      ⟨hid, hr⟩ | ⟨k, d, hid, hpd, ⟨ex, hex, hsf, o, hrec, hout⟩ |
        ⟨ex, hex, hsf, hr⟩ | ⟨hex, o, hrec, hout⟩⟩
    · rw [List.filterMap_cons, hid]
      exact ih s out hr
    · rw [List.filterMap_cons, hid, hout]
      exact (ih _ o hrec).cons k
    · rw [List.filterMap_cons, hid]
      exact (ih s out hr).cons k
    · rw [List.filterMap_cons, hid, hout]
      exact (ih _ o hrec).cons₂ k

/-- A key not named by the stream is untouched by a run. -/
theorem syncDaily_lookup_untouched (ctx : SyncCtx) (items : List DItem) :
    ∀ (s : List DRow) (out : DSyncOut) (k : String),
      syncDailyRun ctx items s = .ok out → k ∉ items.filterMap DItem.id →
      lookupD k out.store = lookupD k s := by
  induction items with
  | nil =>
    intro s out k h _
    rw [syncDailyRun_nil_inv ctx s out h]
  | cons item rest ih =>
    intro s out k h hk
    rcases syncDailyRun_cons_inv ctx item rest s out h with
      ⟨hid, hr⟩ | ⟨k', d, hid, hpd, ⟨ex, hex, hsf, o, hrec, hout⟩ |
        ⟨ex, hex, hsf, hr⟩ | ⟨hex, o, hrec, hout⟩⟩
    · rw [List.filterMap_cons, hid] at hk
      exact ih s out k hr hk
    · rw [List.filterMap_cons, hid] at hk
      have hne : k ≠ k' := fun he => hk (he ▸ List.mem_cons_self _ _)
      have hrest : k ∉ rest.filterMap DItem.id :=
        fun hm => hk (List.mem_cons_of_mem _ hm)
      rw [hout]
      have := ih _ o k hrec hrest
      rw [this]
      exact find?_map_guard_ne DRow.oura_id k k' hne (updDailyRow item d)
        (fun _ => rfl) s
    · rw [List.filterMap_cons, hid] at hk
      exact ih s out k hr (fun hm => hk (List.mem_cons_of_mem _ hm))
    · rw [List.filterMap_cons, hid] at hk
      have hne : k ≠ k' := fun he => hk (he ▸ List.mem_cons_self _ _)
      have hrest : k ∉ rest.filterMap DItem.id :=
        fun hm => hk (List.mem_cons_of_mem _ hm)
      rw [hout]
      have := ih _ o k hrec hrest
      rw [this]
      apply find?_append_ne DRow.oura_id k
      have : (mkDailyRow ctx item d).oura_id = k' := by simp [mkDailyRow, hid]
      rw [this]
      exact beq_eq_false_iff_ne.2 (fun he => hne he.symm)

/-- A run started from a store with distinct ids on a stream with
distinct ids leaves the ids distinct. -/
theorem syncDaily_store_nodup (ctx : SyncCtx) (items : List DItem)
    (s : List DRow) (out : DSyncOut) (h : syncDailyRun ctx items s = .ok out)
    (hs : (idsOfD s).Nodup) (hi : (items.filterMap DItem.id).Nodup) :
    (idsOfD out.store).Nodup := by
  rw [syncDaily_ids ctx items s out h]
  refine hs.append ((syncDaily_inserted_sublist ctx items s out h).nodup hi) ?_
  rw [List.disjoint_right]
  intro a ha
  exact syncDaily_inserted_new ctx items s out h a ha

theorem updStore_id (item : DItem) (d : Option Int) (k : String) (S : List DRow)
    (hnd : (idsOfD S).Nodup) (ρ : DRow) (hρ : lookupD k S = some ρ)
    (hfix : updDailyRow item d ρ = ρ) :
    S.map (fun r => if r.oura_id == k then updDailyRow item d r else r) = S := by
  apply map_guard_id DRow.oura_id k
  intro r hr hk
  have hρmem : ρ ∈ S := List.mem_of_find?_eq_some hρ
  have hρkey : ρ.oura_id = k := by simpa using List.find?_some hρ
  have hreq : r = ρ := List.inj_on_of_nodup_map hnd hr hρmem (by rw [hk, hρkey])
  rw [hreq, hfix]

/-- C1: under the `Full` (force) policy, running the daily-sleep
reconciler twice on the same stream (with vendor-unique external ids,
per the data model) leaves the stored rows of the second run identical
to those of the first, and the second run inserts no external id — no
row is inserted whose external id already exists. -/
theorem syncDaily_idempotent (ctx : SyncCtx) (items : List DItem) :
    ∀ (s : List DRow) (out1 out2 : DSyncOut),
      ctx.force = true →
      (items.filterMap DItem.id).Nodup →
      (idsOfD s).Nodup →
      syncDailyRun ctx items s = .ok out1 →
      syncDailyRun ctx items out1.store = .ok out2 →
      out2.store = out1.store ∧ out2.inserted = [] := by
  induction items with
  | nil =>
    intro s out1 out2 _ _ _ h1 h2
    rw [syncDailyRun_nil_inv ctx out1.store out2 h2]
    exact ⟨rfl, rfl⟩
  | cons item rest ih =>
    intro s out1 out2 hf hnd hsnd h1 h2
    have hforce : ∀ d : Option Int, shouldForce ctx d = true := by
      intro d; simp [shouldForce, hf]
    rcases syncDailyRun_cons_inv ctx item rest s out1 h1 with
      ⟨hid, hr1⟩ | ⟨k, d, hid, hpd, hcase1⟩
    · rcases syncDailyRun_cons_inv ctx item rest out1.store out2 h2 with
        ⟨_, hr2⟩ | ⟨k2, d2, hid2, _, _⟩
      · have hnd2 : (rest.filterMap DItem.id).Nodup := by
          rwa [List.filterMap_cons, hid] at hnd
        exact ih s out1 out2 hf hnd2 hsnd hr1 hr2
      · rw [hid] at hid2; exact absurd hid2 (by simp)
    · have hndk : (rest.filterMap DItem.id).Nodup ∧ k ∉ rest.filterMap DItem.id := by
        rw [List.filterMap_cons, hid] at hnd
        exact ⟨(List.nodup_cons.1 hnd).2, (List.nodup_cons.1 hnd).1⟩
      rcases hcase1 with ⟨ex, hex, _, o1, hrec1, hout1⟩ |
        ⟨ex, hex, hsf, hr1⟩ | ⟨hex, o1, hrec1, hout1⟩
      · -- first run updated the existing row in place
        have hsnd' : (idsOfD (s.map (fun r =>
            if r.oura_id == k then updDailyRow item d r else r))).Nodup := by
          rw [idsOfD_map_guard]; exact hsnd
        have ho1nd : (idsOfD o1.store).Nodup :=
          syncDaily_store_nodup ctx rest _ o1 hrec1 hsnd' hndk.1
        have hlook_s' : lookupD k (s.map (fun r =>
            if r.oura_id == k then updDailyRow item d r else r)) =
            some (updDailyRow item d ex) := by
          unfold lookupD
          rw [find?_map_guard DRow.oura_id k (updDailyRow item d) (fun _ => rfl) s]
          rw [show s.find? (fun r => r.oura_id == k) = some ex from hex]
          rfl
        have hlook_o1 : lookupD k o1.store = some (updDailyRow item d ex) := by
          rw [syncDaily_lookup_untouched ctx rest _ o1 k hrec1 hndk.2, hlook_s']
        have hstore1 : out1.store = o1.store := by rw [hout1]
        rcases syncDailyRun_cons_inv ctx item rest out1.store out2 h2 with
          ⟨hid2, _⟩ | ⟨k2, d2, hid2, hpd2, hcase2⟩
        · rw [hid] at hid2; exact absurd hid2 (by simp)
        · have hk2 : k2 = k := by
            rw [hid] at hid2; exact (Option.some.inj hid2).symm
          have hd2 : d2 = d := by
            rw [hpd] at hpd2; exact (Except.ok.inj hpd2).symm
          rcases hcase2 with ⟨ex2, hex2, _, o2, hrec2, hout2⟩ |
            ⟨ex2, hex2, hsf2, _⟩ | ⟨hex2, _⟩
          · rw [hk2, hd2] at hrec2
            rw [hstore1] at hrec2
            have hid_map : o1.store.map (fun r =>
                if r.oura_id == k then updDailyRow item d r else r) = o1.store :=
              updStore_id item d k o1.store ho1nd (updDailyRow item d ex) hlook_o1
                (updDailyRow_idem item d ex)
            rw [hid_map] at hrec2
            have hih := ih _ o1 o2 hf hndk.1 hsnd' hrec1 hrec2
            rw [hout2, hstore1]
            exact ⟨by rw [hih.1], hih.2⟩
          · rw [hd2, hforce d] at hsf2; exact absurd hsf2 (by simp)
          · rw [hk2, hstore1, hlook_o1] at hex2; exact absurd hex2 (by simp)
      · rw [hforce d] at hsf; exact absurd hsf (by simp)
      · -- first run inserted a new row at the end
        have hmk_key : (mkDailyRow ctx item d).oura_id = k := by
          simp [mkDailyRow, hid]
        have hids₁ : idsOfD (s ++ [mkDailyRow ctx item d]) = idsOfD s ++ [k] := by
          unfold idsOfD
          rw [List.map_append]
          simp [hmk_key]
        have hsnd₁ : (idsOfD (s ++ [mkDailyRow ctx item d])).Nodup := by
          rw [hids₁]
          refine hsnd.append (List.nodup_singleton k) ?_
          rw [List.disjoint_right]
          intro a ha
          rw [List.mem_singleton] at ha
          subst ha
          exact not_mem_idsOfD_of_lookup_none hex
        have ho1nd : (idsOfD o1.store).Nodup :=
          syncDaily_store_nodup ctx rest _ o1 hrec1 hsnd₁ hndk.1
        have hlook_s₁ : lookupD k (s ++ [mkDailyRow ctx item d]) =
            some (mkDailyRow ctx item d) := by
          unfold lookupD
          rw [List.find?_append]
          rw [show s.find? (fun r => r.oura_id == k) = none from hex]
          rw [Option.none_or]
          exact List.find?_cons_of_pos _ (by simp [hmk_key])
        have hlook_o1 : lookupD k o1.store = some (mkDailyRow ctx item d) := by
          rw [syncDaily_lookup_untouched ctx rest _ o1 k hrec1 hndk.2, hlook_s₁]
        have hstore1 : out1.store = o1.store := by rw [hout1]
        rcases syncDailyRun_cons_inv ctx item rest out1.store out2 h2 with
          ⟨hid2, _⟩ | ⟨k2, d2, hid2, hpd2, hcase2⟩
        · rw [hid] at hid2; exact absurd hid2 (by simp)
        · have hk2 : k2 = k := by
            rw [hid] at hid2; exact (Option.some.inj hid2).symm
          have hd2 : d2 = d := by
            rw [hpd] at hpd2; exact (Except.ok.inj hpd2).symm
          rcases hcase2 with ⟨ex2, hex2, _, o2, hrec2, hout2⟩ |
            ⟨ex2, hex2, hsf2, _⟩ | ⟨hex2, _⟩
          · rw [hk2, hd2] at hrec2
            rw [hstore1] at hrec2
            have hid_map : o1.store.map (fun r =>
                if r.oura_id == k then updDailyRow item d r else r) = o1.store :=
              updStore_id item d k o1.store ho1nd (mkDailyRow ctx item d) hlook_o1
                (updDailyRow_mk ctx item d)
            rw [hid_map] at hrec2
            have hih := ih _ o1 o2 hf hndk.1 hsnd₁ hrec1 hrec2
            rw [hout2, hstore1]
            exact ⟨by rw [hih.1], hih.2⟩
          · rw [hd2, hforce d] at hsf2; exact absurd hsf2 (by simp)
          · rw [hk2, hstore1, hlook_o1] at hex2; exact absurd hex2 (by simp)

/-- Witness for `syncDaily_idempotent`: a two-record stream synced
twice into an empty store under `force` leaves the two rows unchanged
and the second run inserts nothing (its count `2` is the two in-place
overwrites). -/
theorem syncDaily_idempotent_witness :
    ((⟨7, 100, 5000, true, false, none⟩ : SyncCtx).force = true ∧
      ([(⟨some "a", some (.valid 99), some 77, none⟩ : DItem),
        ⟨some "b", some (.valid 100), some 80, none⟩].filterMap DItem.id).Nodup ∧
      (idsOfD []).Nodup ∧
      syncDailyRun ⟨7, 100, 5000, true, false, none⟩
        [⟨some "a", some (.valid 99), some 77, none⟩,
         ⟨some "b", some (.valid 100), some 80, none⟩] [] =
        .ok ⟨[mkDailyRow ⟨7, 100, 5000, true, false, none⟩
                ⟨some "a", some (.valid 99), some 77, none⟩ (some 99),
              mkDailyRow ⟨7, 100, 5000, true, false, none⟩
                ⟨some "b", some (.valid 100), some 80, none⟩ (some 100)],
             2, true, ["a", "b"]⟩ ∧
      syncDailyRun ⟨7, 100, 5000, true, false, none⟩
        [⟨some "a", some (.valid 99), some 77, none⟩,
         ⟨some "b", some (.valid 100), some 80, none⟩]
        [mkDailyRow ⟨7, 100, 5000, true, false, none⟩
            ⟨some "a", some (.valid 99), some 77, none⟩ (some 99),
         mkDailyRow ⟨7, 100, 5000, true, false, none⟩
            ⟨some "b", some (.valid 100), some 80, none⟩ (some 100)] =
        .ok ⟨[mkDailyRow ⟨7, 100, 5000, true, false, none⟩
                ⟨some "a", some (.valid 99), some 77, none⟩ (some 99),
              mkDailyRow ⟨7, 100, 5000, true, false, none⟩
                ⟨some "b", some (.valid 100), some 80, none⟩ (some 100)],
             2, false, []⟩) ∧
    ((⟨[mkDailyRow ⟨7, 100, 5000, true, false, none⟩
          ⟨some "a", some (.valid 99), some 77, none⟩ (some 99),
        mkDailyRow ⟨7, 100, 5000, true, false, none⟩
          ⟨some "b", some (.valid 100), some 80, none⟩ (some 100)],
       2, false, []⟩ : DSyncOut).store =
      (⟨[mkDailyRow ⟨7, 100, 5000, true, false, none⟩
          ⟨some "a", some (.valid 99), some 77, none⟩ (some 99),
        mkDailyRow ⟨7, 100, 5000, true, false, none⟩
          ⟨some "b", some (.valid 100), some 80, none⟩ (some 100)],
       2, true, ["a", "b"]⟩ : DSyncOut).store ∧
     (⟨[mkDailyRow ⟨7, 100, 5000, true, false, none⟩
          ⟨some "a", some (.valid 99), some 77, none⟩ (some 99),
        mkDailyRow ⟨7, 100, 5000, true, false, none⟩
          ⟨some "b", some (.valid 100), some 80, none⟩ (some 100)],
       2, false, []⟩ : DSyncOut).inserted = []) :=
  ⟨⟨rfl, by decide, by decide, rfl, rfl⟩,
    syncDaily_idempotent ⟨7, 100, 5000, true, false, none⟩
      [⟨some "a", some (.valid 99), some 77, none⟩,
       ⟨some "b", some (.valid 100), some 80, none⟩] []
      ⟨[mkDailyRow ⟨7, 100, 5000, true, false, none⟩
          ⟨some "a", some (.valid 99), some 77, none⟩ (some 99),
        mkDailyRow ⟨7, 100, 5000, true, false, none⟩
          ⟨some "b", some (.valid 100), some 80, none⟩ (some 100)],
       2, true, ["a", "b"]⟩
      ⟨[mkDailyRow ⟨7, 100, 5000, true, false, none⟩
          ⟨some "a", some (.valid 99), some 77, none⟩ (some 99),
        mkDailyRow ⟨7, 100, 5000, true, false, none⟩
          ⟨some "b", some (.valid 100), some 80, none⟩ (some 100)],
       2, false, []⟩
      rfl (by decide) (by decide) rfl rfl⟩

end VitalMatrix
